import Mathlib

set_option maxRecDepth 8000

/- Verification development for the dexsim price/tick/liquidity math.

   Shallow embedding of:
   - src/dexsim/utils.py  (fixed-point, tick and reserve math),
   - src/dexsim/pool.py   (price-targeting swap sizing, mint tick handling),
   - src/calcliq.py       (mint-time liquidity candidates and inverses).

   Modelling conventions: Python floats are modelled as exact real numbers,
   Python ints as ℤ.  Python's int(x) truncates toward zero, modelled by
   int_trunc / int_truncR below.  A Python function that can raise is
   modelled with Except String. -/

namespace DexSim

/-- Q96 = 2 ** 96 (utils.py line 8). -/
def Q96 : ℤ := 2 ^ 96

/-- TICK_BASE = 1.0001 (utils.py line 9). -/
noncomputable def TICK_BASE : ℝ := 1.0001

/-- MIN_TICK = -887272 (utils.py line 11). -/
def MIN_TICK : ℤ := -887272

/-- MAX_TICK = 887272 (utils.py line 12). -/
def MAX_TICK : ℤ := 887272

/-- is_valid_tick (utils.py lines 20-21): tick >= MIN_TICK and tick <= MAX_TICK. -/
def is_valid_tick (tick : ℤ) : Prop :=
  MIN_TICK ≤ tick ∧ tick ≤ MAX_TICK

instance (tick : ℤ) : Decidable (is_valid_tick tick) := by
  unfold is_valid_tick
  infer_instance

/-- Python's int(x) applied to a rational value: truncation toward zero. -/
def int_trunc (q : ℚ) : ℤ :=
  if 0 ≤ q then ⌊q⌋ else ⌈q⌉

/-- Python's int(x) applied to a real value: truncation toward zero. -/
noncomputable def int_truncR (x : ℝ) : ℤ :=
  if 0 ≤ x then ⌊x⌋ else ⌈x⌉

/-- from_18 (utils.py lines 47-51): value / 1e18. -/
noncomputable def from_18 (value : ℝ) : ℝ :=
  value / 1e18

/-- sqrtp_to_price (utils.py lines 68-75): (sqrtpvalue / Q96) ** 2. -/
noncomputable def sqrtp_to_price (sqrtpvalue : ℤ) : ℝ :=
  ((sqrtpvalue : ℝ) / (Q96 : ℝ)) ^ 2

/-- price_to_sqrtp (utils.py lines 78-84): int(math.sqrt(token1price) * Q96).
math.sqrt raises a math-domain ValueError on negative input; on input 0 it
returns 0.0, so the function itself performs no domain check. -/
noncomputable def price_to_sqrtp (token1price : ℝ) : Except String ℤ :=
  if token1price < 0 then .error "math domain error"
  else .ok ⌊Real.sqrt token1price * (Q96 : ℝ)⌋

/-- price_to_tick (utils.py lines 87-91): math.floor(math.log(price, TICK_BASE)).
math.log raises a math-domain ValueError for any price <= 0, so the floor is
only reached for positive prices. -/
noncomputable def price_to_tick (token1price : ℝ) : Except String ℤ :=
  if token1price ≤ 0 then .error "math domain error"
  else .ok ⌊Real.logb TICK_BASE token1price⌋

/-- The alignment step of price_to_tick_with_spacing (utils.py line 99):
math.floor(tick / spacing) * spacing, where tick / spacing is true division. -/
noncomputable def align_to_spacing (tick spacing : ℤ) : ℤ :=
  ⌊(tick : ℝ) / (spacing : ℝ)⌋ * spacing

/-- price_to_tick_with_spacing (utils.py lines 94-99); the ValueError raised
by price_to_tick for a nonpositive price propagates to the caller. -/
noncomputable def price_to_tick_with_spacing (price : ℝ) (spacing : ℤ) :
    Except String ℤ :=
  (price_to_tick price).map fun tick => align_to_spacing tick spacing

/-- calculate_liquidity_balance (utils.py lines 119-153). -/
noncomputable def calculate_liquidity_balance
    (liquidity lower_price upper_price current_price : ℝ) : ℝ × ℝ :=
  let sqrt_Pa := Real.sqrt lower_price
  let sqrt_Pb := Real.sqrt upper_price
  let sqrt_P := Real.sqrt current_price
  if current_price < lower_price then
    (from_18 (liquidity * (1 / sqrt_Pa - 1 / sqrt_Pb)), from_18 0)
  else if current_price > upper_price then
    (from_18 0, from_18 (liquidity * (sqrt_Pb - sqrt_Pa)))
  else
    (from_18 (liquidity * (1 / sqrt_P - 1 / sqrt_Pb)),
     from_18 (liquidity * (sqrt_P - sqrt_Pa)))

/-- The below-range branch of calculate_liquidity_balance (utils.py
lines 140-143) as a standalone formula. -/
noncomputable def reserves_below (liquidity lower_price upper_price : ℝ) : ℝ × ℝ :=
  (from_18 (liquidity * (1 / Real.sqrt lower_price - 1 / Real.sqrt upper_price)),
   from_18 0)

/-- The above-range branch of calculate_liquidity_balance (utils.py
lines 144-147) as a standalone formula. -/
noncomputable def reserves_above (liquidity lower_price upper_price : ℝ) : ℝ × ℝ :=
  (from_18 0,
   from_18 (liquidity * (Real.sqrt upper_price - Real.sqrt lower_price)))

/-- The observable outcome of a price-targeting call: either no swap is
needed — the code returns the pair (0.0, 0.0) without touching the ledger —
or a swap request for the computed integer amount is handed to the external
router (pool.py swap_1_for_0 / swap_0_for_1, out of scope). -/
inductive PoolAction where
  | noop : PoolAction
  | swapToken1ForToken0 (amount : ℤ) : PoolAction
  | swapToken0ForToken1 (amount : ℤ) : PoolAction
deriving DecidableEq

/-- increase_price_of_token0 (pool.py lines 531-567).  liquidity is the pool
liquidity read from the ledger and current the slot0 sqrt price, both taken
as parameters; int(liquidity * diff / 2 ** 96) is modelled by int_trunc of
the exact quotient. -/
noncomputable def increase_price_of_token0
    (liquidity : ℤ) (target_price : ℝ) (current : ℤ) :
    Except String PoolAction :=
  (price_to_sqrtp target_price).bind fun target =>
    if target > current then
      let diff := target - current
      let amount_t1_to_swap := int_trunc (((liquidity * diff : ℤ) : ℚ) / 2 ^ 96)
      if amount_t1_to_swap ≤ 0 then .ok .noop
      else .ok (.swapToken1ForToken0 amount_t1_to_swap)
    else .error "Cannot increase the price. The target_price is <= current"

/-- decrease_price_of_token0 (pool.py lines 569-603). -/
noncomputable def decrease_price_of_token0
    (liquidity : ℤ) (target_price : ℝ) (current : ℤ) :
    Except String PoolAction :=
  (price_to_sqrtp target_price).bind fun target =>
    if current > target then
      let diff := current - target
      let amount_t0_to_swap := int_trunc (((liquidity * diff : ℤ) : ℚ) / 2 ^ 96)
      if amount_t0_to_swap ≤ 0 then .ok .noop
      else .ok (.swapToken0ForToken1 amount_t0_to_swap)
    else .error "Cannot decrease the price. The target_price is > current"

/-- liquidity0 (calcliq.py lines 64-67); the source swaps (pa, pb) in place
when pa > pb and then applies the single formula, which is rendered here as
the two branches with the arguments exchanged. -/
noncomputable def liquidity0 (amount pa pb : ℝ) : ℝ :=
  if pa > pb then amount * (pb * pa) / (Q96 : ℝ) / (pa - pb)
  else amount * (pa * pb) / (Q96 : ℝ) / (pb - pa)

/-- liquidity1 (calcliq.py lines 70-73). -/
noncomputable def liquidity1 (amount pa pb : ℝ) : ℝ :=
  if pa > pb then amount * (Q96 : ℝ) / (pa - pb)
  else amount * (Q96 : ℝ) / (pb - pa)

/-- calc_amount0 (calcliq.py lines 76-79). -/
noncomputable def calc_amount0 (liq pa pb : ℝ) : ℤ :=
  if pa > pb then int_truncR (liq * (Q96 : ℝ) * (pa - pb) / pb / pa)
  else int_truncR (liq * (Q96 : ℝ) * (pb - pa) / pa / pb)

/-- calc_amount1 (calcliq.py lines 82-85). -/
noncomputable def calc_amount1 (liq pa pb : ℝ) : ℤ :=
  if pa > pb then int_truncR (liq * (pa - pb) / (Q96 : ℝ))
  else int_truncR (liq * (pb - pa) / (Q96 : ℝ))

/-- The mint-time liquidity selection policy, liq = int(min(liq0, liq1))
(calcliq.py lines 97-99): both candidates are computed from the supplied
amounts and the minimum is truncated to an integer. -/
noncomputable def mint_policy_liquidity
    (amount0 amount1 sqrtp_low sqrtp_cur sqrtp_upp : ℝ) : ℤ :=
  int_truncR (min (liquidity0 amount0 sqrtp_cur sqrtp_upp)
    (liquidity1 amount1 sqrtp_cur sqrtp_low))

/-- The tick-range computation of mint_liquidity_position (pool.py lines
274-292): convert both range prices to spacing-aligned ticks independently,
validate them, and sort the resulting ticks.  A ValueError raised inside a
price conversion (nonpositive price) propagates out before any tick exists.
The source's f-string messages interpolate the offending tick; the model
keeps fixed messages. -/
noncomputable def mint_tick_range (low_price high_price : ℝ) (spacing : ℤ) :
    Except String (ℤ × ℤ) :=
  (price_to_tick_with_spacing low_price spacing).bind fun lt =>
  (price_to_tick_with_spacing high_price spacing).bind fun ht =>
  if ¬ is_valid_tick lt then .error "Mint position: low is not a valid tick"
  else if ¬ is_valid_tick ht then .error "Mint position: high is not a valid tick"
  else if lt > ht then .ok (ht, lt)
  else .ok (lt, ht)

/-- Helper: the floor of an integer quotient over ℝ is integer Euclidean
division when the divisor is positive. -/
theorem floor_intCast_div_real (t s : ℤ) (hs : 0 < s) :
    ⌊(t : ℝ) / (s : ℝ)⌋ = t / s := by
  obtain ⟨n, rfl⟩ := Int.eq_ofNat_of_zero_le hs.le
  have h := Rat.floor_intCast_div_natCast t n
  rw [← h, ← Rat.floor_cast (α := ℝ)]
  congr 1
  push_cast
  ring

/-- Claim C7: the alignment step used by price_to_tick_with_spacing computes
floor(tick / spacing) * spacing, i.e. it rounds the quotient toward negative
infinity (Int.fdiv), not toward zero; in particular aligning tick -85177 to
spacing 10 yields -85180, while truncation toward zero would give -85170. -/
theorem align_to_spacing_floor_division :
    (∀ tick spacing : ℤ, 0 < spacing →
      align_to_spacing tick spacing = Int.fdiv tick spacing * spacing) ∧
    align_to_spacing (-85177) 10 = -85180 ∧
    Int.tdiv (-85177) 10 * 10 = -85170 := by
  refine ⟨fun tick spacing hs => ?_, ?_, by decide⟩
  · unfold align_to_spacing
    rw [floor_intCast_div_real tick spacing hs, Int.fdiv_eq_ediv tick hs.le]
  · unfold align_to_spacing
    norm_num

/-- Witness for C7 at a concrete negative tick and positive spacing. -/
theorem align_to_spacing_floor_division_witness :
    (0 : ℤ) < 10 ∧ align_to_spacing (-85177) 10 = Int.fdiv (-85177) 10 * 10 :=
  ⟨by norm_num, align_to_spacing_floor_division.1 (-85177) 10 (by norm_num)⟩

/-- Claim C8 counterexample: at price 0 the code does not fail; math.sqrt(0)
is 0 and the function returns int(0.0 * Q96) = 0, so no domain error occurs
at the boundary case price == 0. -/
theorem price_to_sqrtp_zero_returns_zero :
    price_to_sqrtp 0 = .ok 0 ∧ ∀ e : String, price_to_sqrtp 0 ≠ .error e := by
  have h : price_to_sqrtp 0 = .ok 0 := by
    unfold price_to_sqrtp
    rw [if_neg (lt_irrefl 0)]
    norm_num
  exact ⟨h, fun e => by simp [h]⟩

/-- Claim C8 (amended): price_to_sqrtp returns floor(sqrt(price) * 2^96) for
every price >= 0 — including returning 0 at price == 0 rather than failing —
and fails with the math domain error exactly for price < 0. -/
theorem price_to_sqrtp_spec :
    (∀ p : ℝ, 0 ≤ p → price_to_sqrtp p = .ok ⌊Real.sqrt p * (Q96 : ℝ)⌋) ∧
    (∀ p : ℝ, p < 0 → price_to_sqrtp p = .error "math domain error") := by
  constructor
  · intro p hp
    unfold price_to_sqrtp
    rw [if_neg (not_lt.mpr hp)]
  · intro p hp
    unfold price_to_sqrtp
    rw [if_pos hp]

/-- Witness for C8 at price 1 (domain) and price -1 (error). -/
theorem price_to_sqrtp_spec_witness :
    price_to_sqrtp 1 = .ok (2 ^ 96) ∧
    price_to_sqrtp (-1) = .error "math domain error" := by
  constructor
  · rw [price_to_sqrtp_spec.1 1 (by norm_num)]
    rw [Real.sqrt_one, one_mul]
    norm_num [Q96]
  · exact price_to_sqrtp_spec.2 (-1) (by norm_num)

/-- Claim C1: calculate_liquidity_balance returns the three-regime reserves,
with the in-range branch taken at both boundary prices (the out-of-range
tests are strict), and each component scaled down by 1e18 (from_18). -/
theorem calculate_liquidity_balance_regimes
    (L lower_price upper_price current_price : ℝ)
    (hlow : 0 < lower_price) (hord : lower_price < upper_price)
    (hcur : 0 < current_price) :
    (current_price < lower_price →
      calculate_liquidity_balance L lower_price upper_price current_price =
        (from_18 (L * (1 / Real.sqrt lower_price - 1 / Real.sqrt upper_price)),
         from_18 0)) ∧
    (current_price > upper_price →
      calculate_liquidity_balance L lower_price upper_price current_price =
        (from_18 0,
         from_18 (L * (Real.sqrt upper_price - Real.sqrt lower_price)))) ∧
    (lower_price ≤ current_price → current_price ≤ upper_price →
      calculate_liquidity_balance L lower_price upper_price current_price =
        (from_18 (L * (1 / Real.sqrt current_price - 1 / Real.sqrt upper_price)),
         from_18 (L * (Real.sqrt current_price - Real.sqrt lower_price)))) := by
  refine ⟨fun h => ?_, fun h => ?_, fun h1 h2 => ?_⟩ <;>
    simp only [calculate_liquidity_balance]
  · rw [if_pos h]
  · rw [if_neg (by linarith), if_pos h]
  · rw [if_neg (by linarith), if_neg (by linarith)]

/-- Witness for C1: an in-range configuration. -/
theorem calculate_liquidity_balance_regimes_witness :
    (0 : ℝ) < 1 ∧ (1 : ℝ) < 4 ∧ (0 : ℝ) < 2 ∧ (1 : ℝ) ≤ 2 ∧ (2 : ℝ) ≤ 4 ∧
    calculate_liquidity_balance 7 1 4 2 =
      (from_18 (7 * (1 / Real.sqrt 2 - 1 / Real.sqrt 4)),
       from_18 (7 * (Real.sqrt 2 - Real.sqrt 1))) :=
  ⟨by norm_num, by norm_num, by norm_num, by norm_num, by norm_num,
    (calculate_liquidity_balance_regimes 7 1 4 2 (by norm_num) (by norm_num)
      (by norm_num)).2.2 (by norm_num) (by norm_num)⟩

/-- Claim C2: regime continuity of calculate_liquidity_balance.  At
current_price == lower_price the (in-range) value returned by the code
equals the below-range formula exactly, and at current_price == upper_price
it equals the above-range formula exactly. -/
theorem calculate_liquidity_balance_boundary_continuity
    (L lower_price upper_price : ℝ) (hL : 0 ≤ L)
    (hlow : 0 < lower_price) (hord : lower_price < upper_price) :
    calculate_liquidity_balance L lower_price upper_price lower_price =
      reserves_below L lower_price upper_price ∧
    calculate_liquidity_balance L lower_price upper_price upper_price =
      reserves_above L lower_price upper_price := by
  constructor
  · simp only [calculate_liquidity_balance, reserves_below]
    rw [if_neg (lt_irrefl lower_price), if_neg (by linarith)]
    simp [sub_self]
  · simp only [calculate_liquidity_balance, reserves_above]
    rw [if_neg (by linarith), if_neg (lt_irrefl upper_price)]
    simp [sub_self]

/-- Witness for C2 at liquidity 1 and range (1, 4). -/
theorem calculate_liquidity_balance_boundary_continuity_witness :
    (0 : ℝ) ≤ 1 ∧ (0 : ℝ) < 1 ∧ (1 : ℝ) < 4 ∧
    calculate_liquidity_balance 1 1 4 1 = reserves_below 1 1 4 ∧
    calculate_liquidity_balance 1 1 4 4 = reserves_above 1 1 4 :=
  ⟨by norm_num, by norm_num, by norm_num,
    (calculate_liquidity_balance_boundary_continuity 1 1 4 (by norm_num)
      (by norm_num) (by norm_num)).1,
    (calculate_liquidity_balance_boundary_continuity 1 1 4 (by norm_num)
      (by norm_num) (by norm_num)).2⟩

/-- Claim C10: for nonnegative liquidity and a valid price configuration both
returned reserve components are nonnegative, and in each out-of-range regime
the regime-inappropriate component is zero. -/
theorem calculate_liquidity_balance_nonneg
    (L lower_price upper_price current_price : ℝ)
    (hL : 0 ≤ L) (hlow : 0 < lower_price) (hord : lower_price < upper_price)
    (hcur : 0 < current_price) :
    0 ≤ (calculate_liquidity_balance L lower_price upper_price current_price).1 ∧
    0 ≤ (calculate_liquidity_balance L lower_price upper_price current_price).2 ∧
    (current_price < lower_price →
      (calculate_liquidity_balance L lower_price upper_price current_price).2 = 0) ∧
    (current_price > upper_price →
      (calculate_liquidity_balance L lower_price upper_price current_price).1 = 0) := by
  have e18 : (0 : ℝ) ≤ 1e18 := by norm_num
  have sla : (0 : ℝ) < Real.sqrt lower_price := Real.sqrt_pos.mpr hlow
  have sab : Real.sqrt lower_price ≤ Real.sqrt upper_price :=
    Real.sqrt_le_sqrt hord.le
  simp only [calculate_liquidity_balance]
  split_ifs with h1 h2
  · refine ⟨?_, ?_, fun _ => ?_, fun h => absurd h (by linarith)⟩
    · exact div_nonneg (mul_nonneg hL (sub_nonneg.mpr
        (one_div_le_one_div_of_le sla sab))) e18
    · simp [from_18]
    · simp [from_18]
  · refine ⟨?_, ?_, fun h => absurd h h1, fun _ => ?_⟩
    · simp [from_18]
    · exact div_nonneg (mul_nonneg hL (sub_nonneg.mpr sab)) e18
    · simp [from_18]
  · have hcl : lower_price ≤ current_price := not_lt.mp h1
    have hcu : current_price ≤ upper_price := not_lt.mp h2
    have slc : Real.sqrt lower_price ≤ Real.sqrt current_price :=
      Real.sqrt_le_sqrt hcl
    have scb : Real.sqrt current_price ≤ Real.sqrt upper_price :=
      Real.sqrt_le_sqrt hcu
    have scp : (0 : ℝ) < Real.sqrt current_price := Real.sqrt_pos.mpr hcur
    refine ⟨?_, ?_, fun h => absurd h h1, fun h => absurd h h2⟩
    · exact div_nonneg (mul_nonneg hL (sub_nonneg.mpr
        (one_div_le_one_div_of_le scp scb))) e18
    · exact div_nonneg (mul_nonneg hL (sub_nonneg.mpr slc)) e18

/-- Witness for C10: an in-range configuration. -/
theorem calculate_liquidity_balance_nonneg_witness :
    (0 : ℝ) ≤ 7 ∧ (0 : ℝ) < 1 ∧ (1 : ℝ) < 4 ∧ (0 : ℝ) < 2 ∧
    0 ≤ (calculate_liquidity_balance 7 1 4 2).1 ∧
    0 ≤ (calculate_liquidity_balance 7 1 4 2).2 :=
  ⟨by norm_num, by norm_num, by norm_num, by norm_num,
    (calculate_liquidity_balance_nonneg 7 1 4 2 (by norm_num) (by norm_num)
      (by norm_num) (by norm_num)).1,
    (calculate_liquidity_balance_nonneg 7 1 4 2 (by norm_num) (by norm_num)
      (by norm_num) (by norm_num)).2.1⟩

/-- Helper: price_to_sqrtp at the perfect square 4 evaluates to 2 * 2^96. -/
theorem price_to_sqrtp_four : price_to_sqrtp 4 = .ok (2 ^ 97) := by
  unfold price_to_sqrtp
  rw [if_neg (by norm_num), show Real.sqrt 4 = 2 by
    rw [show (4 : ℝ) = 2 ^ 2 by norm_num, Real.sqrt_sq (by norm_num : (0 : ℝ) ≤ 2)]]
  norm_num [Q96]

/-- Claim C3: whichever direction is requested, the counter-asset amount
computed and handed to the swap is int(liquidity * |target - current| / 2^96),
and whenever that integer is zero or below the call is a no-op, not an error
and not a swap. -/
theorem price_targeting_counter_amount
    (liquidity target current : ℤ) (target_price : ℝ)
    (hok : price_to_sqrtp target_price = .ok target) (_hne : target ≠ current) :
    (current < target →
      increase_price_of_token0 liquidity target_price current =
        if int_trunc (((liquidity * |target - current| : ℤ) : ℚ) / 2 ^ 96) ≤ 0
        then .ok .noop
        else .ok (.swapToken1ForToken0
          (int_trunc (((liquidity * |target - current| : ℤ) : ℚ) / 2 ^ 96)))) ∧
    (target < current →
      decrease_price_of_token0 liquidity target_price current =
        if int_trunc (((liquidity * |target - current| : ℤ) : ℚ) / 2 ^ 96) ≤ 0
        then .ok .noop
        else .ok (.swapToken0ForToken1
          (int_trunc (((liquidity * |target - current| : ℤ) : ℚ) / 2 ^ 96)))) := by
  constructor
  · intro h
    rw [abs_of_pos (sub_pos.mpr h)]
    unfold increase_price_of_token0
    rw [hok]
    simp only [Except.bind, if_pos h]
  · intro h
    rw [abs_of_neg (sub_neg.mpr h), neg_sub]
    unfold decrease_price_of_token0
    rw [hok]
    simp only [Except.bind, if_pos h]

/-- Witness for C3: liquidity 1, target sqrt price 2^97 (price 4), current
sqrt price 2^96; the computed amount is 1 and a swap of token1 is requested. -/
theorem price_targeting_counter_amount_witness :
    price_to_sqrtp 4 = .ok (2 ^ 97) ∧ (2 ^ 97 : ℤ) ≠ 2 ^ 96 ∧
    (2 ^ 96 : ℤ) < 2 ^ 97 ∧
    increase_price_of_token0 1 4 (2 ^ 96) = .ok (.swapToken1ForToken0 1) := by
  refine ⟨price_to_sqrtp_four, by norm_num, by norm_num, ?_⟩
  have h := (price_targeting_counter_amount 1 (2 ^ 97) (2 ^ 96) 4
    price_to_sqrtp_four (by norm_num)).1 (by norm_num)
  rw [h]
  norm_num [int_trunc]

/-- Claim C4: a direction-inconsistent target fails with the precondition
error before any swap amount is computed: increase with target <= current
errors, and decrease with target >= current errors. -/
theorem price_targeting_direction_check
    (liquidity target current : ℤ) (target_price : ℝ)
    (hok : price_to_sqrtp target_price = .ok target) :
    (target ≤ current →
      increase_price_of_token0 liquidity target_price current =
        .error "Cannot increase the price. The target_price is <= current") ∧
    (current ≤ target →
      decrease_price_of_token0 liquidity target_price current =
        .error "Cannot decrease the price. The target_price is > current") := by
  constructor
  · intro h
    unfold increase_price_of_token0
    rw [hok]
    simp only [Except.bind, if_neg (not_lt.mpr h)]
  · intro h
    unfold decrease_price_of_token0
    rw [hok]
    simp only [Except.bind, if_neg (not_lt.mpr h)]

/-- Witness for C4: target sqrt price 2^97 (price 4) with current at or above
it makes increase fail, and current at or below it makes decrease fail. -/
theorem price_targeting_direction_check_witness :
    price_to_sqrtp 4 = .ok (2 ^ 97) ∧ (2 ^ 97 : ℤ) ≤ 2 ^ 97 ∧
    increase_price_of_token0 5 4 (2 ^ 97) =
      .error "Cannot increase the price. The target_price is <= current" ∧
    decrease_price_of_token0 5 4 (2 ^ 97) =
      .error "Cannot decrease the price. The target_price is > current" :=
  ⟨price_to_sqrtp_four, le_refl _,
    (price_targeting_direction_check 5 (2 ^ 97) (2 ^ 97) 4
      price_to_sqrtp_four).1 (le_refl _),
    (price_targeting_direction_check 5 (2 ^ 97) (2 ^ 97) 4
      price_to_sqrtp_four).2 (le_refl _)⟩

/-- Claim C5: the minimum-candidate liquidity never implies consuming more of
either asset than supplied: with L = int(min(liquidity0, liquidity1)), both
calc_amount0(L, cur, upp) <= amount0 and calc_amount1(L, low, cur) <= amount1. -/
theorem mint_policy_minimum_bounds
    (amount0 amount1 pl pc pu : ℝ)
    (h0 : 0 < amount0) (h1 : 0 < amount1)
    (hpl : 0 < pl) (hlc : pl < pc) (hcu : pc < pu) :
    ((calc_amount0 ((mint_policy_liquidity amount0 amount1 pl pc pu : ℤ) : ℝ)
        pc pu : ℤ) : ℝ) ≤ amount0 ∧
    ((calc_amount1 ((mint_policy_liquidity amount0 amount1 pl pc pu : ℤ) : ℝ)
        pl pc : ℤ) : ℝ) ≤ amount1 := by
  have hpc : 0 < pc := hpl.trans hlc
  have hpu : 0 < pu := hpc.trans hcu
  have hQ : (0 : ℝ) < (Q96 : ℝ) := by norm_num [Q96]
  have hpc' : pc ≠ 0 := ne_of_gt hpc
  have hpu' : pu ≠ 0 := ne_of_gt hpu
  have hQ' : (Q96 : ℝ) ≠ 0 := ne_of_gt hQ
  have hcu' : pu - pc ≠ 0 := ne_of_gt (sub_pos.mpr hcu)
  have hlc' : pc - pl ≠ 0 := ne_of_gt (sub_pos.mpr hlc)
  have l0eq : liquidity0 amount0 pc pu =
      amount0 * (pc * pu) / (Q96 : ℝ) / (pu - pc) := by
    unfold liquidity0
    rw [if_neg (not_lt.mpr hcu.le)]
  have l1eq : liquidity1 amount1 pc pl = amount1 * (Q96 : ℝ) / (pc - pl) := by
    unfold liquidity1
    rw [if_pos hlc]
  have l0pos : 0 < liquidity0 amount0 pc pu := by
    rw [l0eq]
    exact div_pos (div_pos (mul_pos h0 (mul_pos hpc hpu)) hQ) (sub_pos.mpr hcu)
  have l1pos : 0 < liquidity1 amount1 pc pl := by
    rw [l1eq]
    exact div_pos (mul_pos h1 hQ) (sub_pos.mpr hlc)
  set m := min (liquidity0 amount0 pc pu) (liquidity1 amount1 pc pl) with hm
  have mpos : 0 < m := lt_min l0pos l1pos
  have hLdef : mint_policy_liquidity amount0 amount1 pl pc pu = ⌊m⌋ := by
    unfold mint_policy_liquidity int_truncR
    rw [if_pos mpos.le]
  set L : ℤ := ⌊m⌋ with hLm
  have hL0 : (0 : ℝ) ≤ (L : ℝ) := by
    exact_mod_cast Int.floor_nonneg.mpr mpos.le
  have hLle : (L : ℝ) ≤ m := Int.floor_le m
  constructor
  · have c0eq : calc_amount0 (L : ℝ) pc pu =
        int_truncR ((L : ℝ) * (Q96 : ℝ) * (pu - pc) / pc / pu) := by
      unfold calc_amount0
      rw [if_neg (not_lt.mpr hcu.le)]
    have factor_pos : 0 < (Q96 : ℝ) * (pu - pc) / pc / pu :=
      div_pos (div_pos (mul_pos hQ (sub_pos.mpr hcu)) hpc) hpu
    have x0eq : (L : ℝ) * (Q96 : ℝ) * (pu - pc) / pc / pu =
        (L : ℝ) * ((Q96 : ℝ) * (pu - pc) / pc / pu) := by ring
    have x0nonneg : 0 ≤ (L : ℝ) * (Q96 : ℝ) * (pu - pc) / pc / pu := by
      rw [x0eq]
      exact mul_nonneg hL0 factor_pos.le
    have key0 : liquidity0 amount0 pc pu * ((Q96 : ℝ) * (pu - pc) / pc / pu) =
        amount0 := by
      rw [l0eq]
      field_simp
    have bound : (L : ℝ) * (Q96 : ℝ) * (pu - pc) / pc / pu ≤ amount0 := by
      rw [x0eq, ← key0]
      exact mul_le_mul_of_nonneg_right
        (hLle.trans (min_le_left _ _)) factor_pos.le
    rw [hLdef, c0eq]
    unfold int_truncR
    rw [if_pos x0nonneg]
    exact (Int.floor_le _).trans bound
  · have c1eq : calc_amount1 (L : ℝ) pl pc =
        int_truncR ((L : ℝ) * (pc - pl) / (Q96 : ℝ)) := by
      unfold calc_amount1
      rw [if_neg (not_lt.mpr hlc.le)]
    have factor_pos : 0 < (pc - pl) / (Q96 : ℝ) :=
      div_pos (sub_pos.mpr hlc) hQ
    have x1eq : (L : ℝ) * (pc - pl) / (Q96 : ℝ) =
        (L : ℝ) * ((pc - pl) / (Q96 : ℝ)) := by ring
    have x1nonneg : 0 ≤ (L : ℝ) * (pc - pl) / (Q96 : ℝ) := by
      rw [x1eq]
      exact mul_nonneg hL0 factor_pos.le
    have key1 : liquidity1 amount1 pc pl * ((pc - pl) / (Q96 : ℝ)) =
        amount1 := by
      rw [l1eq]
      field_simp
    have bound : (L : ℝ) * (pc - pl) / (Q96 : ℝ) ≤ amount1 := by
      rw [x1eq, ← key1]
      exact mul_le_mul_of_nonneg_right
        (hLle.trans (min_le_right _ _)) factor_pos.le
    rw [hLdef, c1eq]
    unfold int_truncR
    rw [if_pos x1nonneg]
    exact (Int.floor_le _).trans bound

/-- Witness for C5 at amounts 1, 1 and sorted sqrt prices 1 < 2 < 3. -/
theorem mint_policy_minimum_bounds_witness :
    (0 : ℝ) < 1 ∧ (0 : ℝ) < 1 ∧ (0 : ℝ) < 1 ∧ (1 : ℝ) < 2 ∧ (2 : ℝ) < 3 ∧
    ((calc_amount0 ((mint_policy_liquidity 1 1 1 2 3 : ℤ) : ℝ) 2 3 : ℤ) : ℝ) ≤ 1 ∧
    ((calc_amount1 ((mint_policy_liquidity 1 1 1 2 3 : ℤ) : ℝ) 1 2 : ℤ) : ℝ) ≤ 1 :=
  ⟨by norm_num, by norm_num, by norm_num, by norm_num, by norm_num,
    (mint_policy_minimum_bounds 1 1 1 2 3 (by norm_num) (by norm_num)
      (by norm_num) (by norm_num) (by norm_num)).1,
    (mint_policy_minimum_bounds 1 1 1 2 3 (by norm_num) (by norm_num)
      (by norm_num) (by norm_num) (by norm_num)).2⟩

/-- Helper: the Q96 scale as a real number. -/
theorem Q96_real : (Q96 : ℝ) = 2 ^ 96 := by
  norm_num [Q96]

/-- Helper: price_to_sqrtp at price 1 evaluates to 2^96. -/
theorem price_to_sqrtp_one : price_to_sqrtp 1 = .ok (2 ^ 96) := by
  unfold price_to_sqrtp
  rw [if_neg (by norm_num), Real.sqrt_one, one_mul, Q96_real]
  norm_num

/-- Claim C9 counterexample: at price 2 / 2^192 the sqrt fixed-point value
floors to 1, the round trip returns 1 / 2^192, and the relative error is 1/2,
far above the claimed 1e-9 tolerance, so the round-trip property does not
hold for every price > 0. -/
theorem sqrtp_roundtrip_fails_for_tiny_price :
    (0 : ℝ) < 2 / 2 ^ 192 ∧
    price_to_sqrtp (2 / 2 ^ 192) = .ok 1 ∧
    sqrtp_to_price 1 = 1 / 2 ^ 192 ∧
    ¬ |sqrtp_to_price 1 - 2 / 2 ^ 192| ≤ 1 / 10 ^ 9 * (2 / 2 ^ 192) := by
  have hs : Real.sqrt (2 / 2 ^ 192) * (Q96 : ℝ) = Real.sqrt 2 := by
    rw [show (2 / 2 ^ 192 : ℝ) = 2 * ((1 : ℝ) / 2 ^ 96) ^ 2 by norm_num,
      Real.sqrt_mul (by norm_num) (((1 : ℝ) / 2 ^ 96) ^ 2),
      Real.sqrt_sq (by norm_num : (0 : ℝ) ≤ 1 / 2 ^ 96), Q96_real]
    ring
  have hfloor : ⌊Real.sqrt 2⌋ = 1 := by
    have hlo : (1 : ℝ) ≤ Real.sqrt 2 :=
      (Real.le_sqrt (by norm_num) (by norm_num)).mpr
        (by norm_num : (1 : ℝ) ^ 2 ≤ 2)
    have hhi : Real.sqrt 2 < 2 :=
      (Real.sqrt_lt' (by norm_num : (0 : ℝ) < 2)).mpr
        (by norm_num : (2 : ℝ) < 2 ^ 2)
    rw [Int.floor_eq_iff]
    constructor
    · push_cast
      linarith
    · push_cast
      linarith
  have hok : price_to_sqrtp (2 / 2 ^ 192) = .ok 1 := by
    unfold price_to_sqrtp
    rw [if_neg (by norm_num), hs, hfloor]
  have hrt : sqrtp_to_price 1 = 1 / 2 ^ 192 := by
    unfold sqrtp_to_price
    rw [Q96_real]
    norm_num
  refine ⟨by norm_num, hok, hrt, ?_⟩
  rw [hrt]
  rw [abs_of_neg (by norm_num : (1 / 2 ^ 192 : ℝ) - 2 / 2 ^ 192 < 0)]
  norm_num

/-- Claim C9 (amended): for every price at least (1 / 2^65)^2 = 2^(-130) the
round trip sqrtp_to_price (price_to_sqrtp price) stays within the relative
tolerance 1e-9: it never exceeds the price and falls short of it by at most
1e-9 times the price.  (For smaller positive prices the floor inside
price_to_sqrtp can lose most of the value, as the counterexample shows.) -/
theorem sqrtp_roundtrip_tolerance (p : ℝ) (hp : ((1 : ℝ) / 2 ^ 65) ^ 2 ≤ p)
    (n : ℤ) (hok : price_to_sqrtp p = .ok n) :
    sqrtp_to_price n ≤ p ∧ p - sqrtp_to_price n ≤ 1 / 10 ^ 9 * p := by
  have hp0 : 0 ≤ p := le_trans (by norm_num) hp
  have hn : n = ⌊Real.sqrt p * (Q96 : ℝ)⌋ := by
    unfold price_to_sqrtp at hok
    rw [if_neg (not_lt.mpr hp0)] at hok
    exact (Except.ok.injEq _ _ ▸ hok.symm)
  set s := Real.sqrt p with hsdef
  have hs0 : 0 ≤ s := Real.sqrt_nonneg p
  have hs2 : s ^ 2 = p := Real.sq_sqrt hp0
  have hslb : (1 : ℝ) / 2 ^ 65 ≤ s :=
    (Real.le_sqrt (by norm_num) hp0).mpr hp
  have hQpos : (0 : ℝ) < (Q96 : ℝ) := by rw [Q96_real]; positivity
  have hfl : ((n : ℝ)) ≤ s * (Q96 : ℝ) := by
    rw [hn]; exact Int.floor_le _
  have hfl2 : s * (Q96 : ℝ) < (n : ℝ) + 1 := by
    rw [hn]; exact Int.lt_floor_add_one _
  have hn0 : (0 : ℝ) ≤ (n : ℝ) := by
    rw [hn]
    exact_mod_cast Int.floor_nonneg.mpr (mul_nonneg hs0 hQpos.le)
  set a := (n : ℝ) / (Q96 : ℝ) with hadef
  have ha0 : 0 ≤ a := div_nonneg hn0 hQpos.le
  have has : a ≤ s := (div_le_iff₀ hQpos).mpr hfl
  have hsa : s - a ≤ 1 / (Q96 : ℝ) := by
    have h : s ≤ ((n : ℝ) + 1) / (Q96 : ℝ) := (le_div_iff₀ hQpos).mpr hfl2.le
    have e : ((n : ℝ) + 1) / (Q96 : ℝ) = a + 1 / (Q96 : ℝ) := by
      rw [hadef]
      ring
    linarith
  have hrt : sqrtp_to_price n = a ^ 2 := rfl
  constructor
  · rw [hrt, ← hs2]
    exact pow_le_pow_left₀ ha0 has 2
  · rw [hrt, ← hs2]
    have e2 : (s - a) * (s + a) ≤ 1 / (Q96 : ℝ) * (2 * s) := by
      apply mul_le_mul hsa (by linarith) (by linarith) (by positivity)
    have c1 : (2 : ℝ) / 2 ^ 96 ≤ 1 / 10 ^ 9 * (1 / 2 ^ 65) := by norm_num
    have c2 : 1 / 10 ^ 9 * (1 / 2 ^ 65) * s ≤ 1 / 10 ^ 9 * s * s := by
      have hm := mul_le_mul_of_nonneg_left hslb
        (by norm_num : (0 : ℝ) ≤ 1 / 10 ^ 9)
      exact mul_le_mul_of_nonneg_right hm hs0
    have e3 : 1 / (Q96 : ℝ) * (2 * s) ≤ 1 / 10 ^ 9 * s ^ 2 := by
      rw [Q96_real]
      calc 1 / (2 ^ 96 : ℝ) * (2 * s) = ((2 : ℝ) / 2 ^ 96) * s := by ring
        _ ≤ (1 / 10 ^ 9 * (1 / 2 ^ 65)) * s := mul_le_mul_of_nonneg_right c1 hs0
        _ ≤ 1 / 10 ^ 9 * s * s := c2
        _ = 1 / 10 ^ 9 * s ^ 2 := by ring
    have e1 : s ^ 2 - a ^ 2 = (s - a) * (s + a) := by ring
    linarith

/-- Witness for C9 (amended) at price 1, which round-trips exactly. -/
theorem sqrtp_roundtrip_tolerance_witness :
    ((1 : ℝ) / 2 ^ 65) ^ 2 ≤ 1 ∧ price_to_sqrtp 1 = .ok (2 ^ 96) ∧
    sqrtp_to_price (2 ^ 96) ≤ 1 ∧
    1 - sqrtp_to_price (2 ^ 96) ≤ 1 / 10 ^ 9 * 1 :=
  ⟨by norm_num, price_to_sqrtp_one,
    (sqrtp_roundtrip_tolerance 1 (by norm_num) (2 ^ 96) price_to_sqrtp_one).1,
    (sqrtp_roundtrip_tolerance 1 (by norm_num) (2 ^ 96) price_to_sqrtp_one).2⟩

/-- Helper: the tick base is positive. -/
theorem tb_pos : (0 : ℝ) < TICK_BASE := by norm_num [TICK_BASE]

/-- Helper: powers of the tick base are nonnegative. -/
theorem tbp (n : ℕ) : (0 : ℝ) ≤ TICK_BASE ^ n := pow_nonneg tb_pos.le n

/-- Helper: a product bound from factorwise bounds. -/
theorem mul_le_mul4 {a b c d : ℝ} (h1 : 0 ≤ a) (h2 : a ≤ b) (h3 : 0 ≤ c)
    (h4 : c ≤ d) : a * c ≤ b * d :=
  mul_le_mul h2 h4 h3 (h1.trans h2)

/-- Helper: lower bound for TICK_BASE ^ 1. -/
theorem tb_lb_1 : (10001 / 10000 : ℝ) ≤ TICK_BASE ^ (1 : ℕ) := by
  norm_num [TICK_BASE]

/-- Helper: upper bound for TICK_BASE ^ 1. -/
theorem tb_ub_1 : TICK_BASE ^ (1 : ℕ) ≤ (10001 / 10000 : ℝ) := by
  norm_num [TICK_BASE]

/-- Helper: lower bound for TICK_BASE ^ 2. -/
theorem tb_lb_2 : (100020001 / 100000000 : ℝ) ≤ TICK_BASE ^ (2 : ℕ) := by
  have h := pow_le_pow_left₀ (by norm_num : (0 : ℝ) ≤ 10001 / 10000) tb_lb_1 2
  calc (100020001 / 100000000 : ℝ) ≤ (10001 / 10000 : ℝ) ^ 2 := by norm_num
    _ ≤ (TICK_BASE ^ (1 : ℕ)) ^ 2 := h
    _ = TICK_BASE ^ (2 : ℕ) := by rw [← pow_mul]

/-- Helper: upper bound for TICK_BASE ^ 2. -/
theorem tb_ub_2 : TICK_BASE ^ (2 : ℕ) ≤ (100020001 / 100000000 : ℝ) := by
  have h := pow_le_pow_left₀ (tbp 1) tb_ub_1 2
  calc TICK_BASE ^ (2 : ℕ) = (TICK_BASE ^ (1 : ℕ)) ^ 2 := by rw [← pow_mul]
    _ ≤ (10001 / 10000 : ℝ) ^ 2 := h
    _ ≤ (100020001 / 100000000 : ℝ) := by norm_num

/-- Helper: lower bound for TICK_BASE ^ 4. -/
theorem tb_lb_4 : (250100015001 / 250000000000 : ℝ) ≤ TICK_BASE ^ (4 : ℕ) := by
  have h := pow_le_pow_left₀ (by norm_num : (0 : ℝ) ≤ 100020001 / 100000000) tb_lb_2 2
  calc (250100015001 / 250000000000 : ℝ) ≤ (100020001 / 100000000 : ℝ) ^ 2 := by norm_num
    _ ≤ (TICK_BASE ^ (2 : ℕ)) ^ 2 := h
    _ = TICK_BASE ^ (4 : ℕ) := by rw [← pow_mul]

/-- Helper: upper bound for TICK_BASE ^ 4. -/
theorem tb_ub_4 : TICK_BASE ^ (4 : ℕ) ≤ (200080012001 / 200000000000 : ℝ) := by
  have h := pow_le_pow_left₀ (tbp 2) tb_ub_2 2
  calc TICK_BASE ^ (4 : ℕ) = (TICK_BASE ^ (2 : ℕ)) ^ 2 := by rw [← pow_mul]
    _ ≤ (100020001 / 100000000 : ℝ) ^ 2 := h
    _ ≤ (200080012001 / 200000000000 : ℝ) := by norm_num

/-- Helper: lower bound for TICK_BASE ^ 8. -/
theorem tb_lb_8 : (125100035007 / 125000000000 : ℝ) ≤ TICK_BASE ^ (8 : ℕ) := by
  have h := pow_le_pow_left₀ (by norm_num : (0 : ℝ) ≤ 250100015001 / 250000000000) tb_lb_4 2
  calc (125100035007 / 125000000000 : ℝ) ≤ (250100015001 / 250000000000 : ℝ) ^ 2 := by norm_num
    _ ≤ (TICK_BASE ^ (4 : ℕ)) ^ 2 := h
    _ = TICK_BASE ^ (8 : ℕ) := by rw [← pow_mul]

/-- Helper: upper bound for TICK_BASE ^ 8. -/
theorem tb_ub_8 : TICK_BASE ^ (8 : ℕ) ≤ (1000800280059 / 1000000000000 : ℝ) := by
  have h := pow_le_pow_left₀ (tbp 4) tb_ub_4 2
  calc TICK_BASE ^ (8 : ℕ) = (TICK_BASE ^ (4 : ℕ)) ^ 2 := by rw [← pow_mul]
    _ ≤ (200080012001 / 200000000000 : ℝ) ^ 2 := h
    _ ≤ (1000800280059 / 1000000000000 : ℝ) := by norm_num

/-- Helper: lower bound for TICK_BASE ^ 16. -/
theorem tb_lb_16 : (12520015007 / 12500000000 : ℝ) ≤ TICK_BASE ^ (16 : ℕ) := by
  have h := pow_le_pow_left₀ (by norm_num : (0 : ℝ) ≤ 125100035007 / 125000000000) tb_lb_8 2
  calc (12520015007 / 12500000000 : ℝ) ≤ (125100035007 / 125000000000 : ℝ) ^ 2 := by norm_num
    _ ≤ (TICK_BASE ^ (8 : ℕ)) ^ 2 := h
    _ = TICK_BASE ^ (16 : ℕ) := by rw [← pow_mul]

/-- Helper: upper bound for TICK_BASE ^ 16. -/
theorem tb_ub_16 : TICK_BASE ^ (16 : ℕ) ≤ (1001601200567 / 1000000000000 : ℝ) := by
  have h := pow_le_pow_left₀ (tbp 8) tb_ub_8 2
  calc TICK_BASE ^ (16 : ℕ) = (TICK_BASE ^ (8 : ℕ)) ^ 2 := by rw [← pow_mul]
    _ ≤ (1000800280059 / 1000000000000 : ℝ) ^ 2 := h
    _ ≤ (1001601200567 / 1000000000000 : ℝ) := by norm_num

/-- Helper: lower bound for TICK_BASE ^ 32. -/
theorem tb_lb_32 : (1003204964963 / 1000000000000 : ℝ) ≤ TICK_BASE ^ (32 : ℕ) := by
  have h := pow_le_pow_left₀ (by norm_num : (0 : ℝ) ≤ 12520015007 / 12500000000) tb_lb_16 2
  calc (1003204964963 / 1000000000000 : ℝ) ≤ (12520015007 / 12500000000 : ℝ) ^ 2 := by norm_num
    _ ≤ (TICK_BASE ^ (16 : ℕ)) ^ 2 := h
    _ = TICK_BASE ^ (32 : ℕ) := by rw [← pow_mul]

/-- Helper: upper bound for TICK_BASE ^ 32. -/
theorem tb_ub_32 : TICK_BASE ^ (32 : ℕ) ≤ (501602482489 / 500000000000 : ℝ) := by
  have h := pow_le_pow_left₀ (tbp 16) tb_ub_16 2
  calc TICK_BASE ^ (32 : ℕ) = (TICK_BASE ^ (16 : ℕ)) ^ 2 := by rw [← pow_mul]
    _ ≤ (1001601200567 / 1000000000000 : ℝ) ^ 2 := h
    _ ≤ (501602482489 / 500000000000 : ℝ) := by norm_num

/-- Helper: lower bound for TICK_BASE ^ 64. -/
theorem tb_lb_64 : (503210100863 / 500000000000 : ℝ) ≤ TICK_BASE ^ (64 : ℕ) := by
  have h := pow_le_pow_left₀ (by norm_num : (0 : ℝ) ≤ 1003204964963 / 1000000000000) tb_lb_32 2
  calc (503210100863 / 500000000000 : ℝ) ≤ (1003204964963 / 1000000000000 : ℝ) ^ 2 := by norm_num
    _ ≤ (TICK_BASE ^ (32 : ℕ)) ^ 2 := h
    _ = TICK_BASE ^ (64 : ℕ) := by rw [← pow_mul]

/-- Helper: upper bound for TICK_BASE ^ 64. -/
theorem tb_ub_64 : TICK_BASE ^ (64 : ℕ) ≤ (1006420201757 / 1000000000000 : ℝ) := by
  have h := pow_le_pow_left₀ (tbp 32) tb_ub_32 2
  calc TICK_BASE ^ (64 : ℕ) = (TICK_BASE ^ (32 : ℕ)) ^ 2 := by rw [← pow_mul]
    _ ≤ (501602482489 / 500000000000 : ℝ) ^ 2 := h
    _ ≤ (1006420201757 / 1000000000000 : ℝ) := by norm_num

/-- Helper: lower bound for TICK_BASE ^ 128. -/
theorem tb_lb_128 : (506440811221 / 500000000000 : ℝ) ≤ TICK_BASE ^ (128 : ℕ) := by
  have h := pow_le_pow_left₀ (by norm_num : (0 : ℝ) ≤ 503210100863 / 500000000000) tb_lb_64 2
  calc (506440811221 / 500000000000 : ℝ) ≤ (503210100863 / 500000000000 : ℝ) ^ 2 := by norm_num
    _ ≤ (TICK_BASE ^ (64 : ℕ)) ^ 2 := h
    _ = TICK_BASE ^ (128 : ℕ) := by rw [← pow_mul]

/-- Helper: upper bound for TICK_BASE ^ 128. -/
theorem tb_ub_128 : TICK_BASE ^ (128 : ℕ) ≤ (202576324501 / 200000000000 : ℝ) := by
  have h := pow_le_pow_left₀ (tbp 64) tb_ub_64 2
  calc TICK_BASE ^ (128 : ℕ) = (TICK_BASE ^ (64 : ℕ)) ^ 2 := by rw [← pow_mul]
    _ ≤ (1006420201757 / 1000000000000 : ℝ) ^ 2 := h
    _ ≤ (202576324501 / 200000000000 : ℝ) := by norm_num

/-- Helper: lower bound for TICK_BASE ^ 256. -/
theorem tb_lb_256 : (25648229527 / 25000000000 : ℝ) ≤ TICK_BASE ^ (256 : ℕ) := by
  have h := pow_le_pow_left₀ (by norm_num : (0 : ℝ) ≤ 506440811221 / 500000000000) tb_lb_128 2
  calc (25648229527 / 25000000000 : ℝ) ≤ (506440811221 / 500000000000 : ℝ) ^ 2 := by norm_num
    _ ≤ (TICK_BASE ^ (128 : ℕ)) ^ 2 := h
    _ = TICK_BASE ^ (256 : ℕ) := by rw [← pow_mul]

/-- Helper: upper bound for TICK_BASE ^ 256. -/
theorem tb_ub_256 : TICK_BASE ^ (256 : ℕ) ≤ (1025929181209 / 1000000000000 : ℝ) := by
  have h := pow_le_pow_left₀ (tbp 128) tb_ub_128 2
  calc TICK_BASE ^ (256 : ℕ) = (TICK_BASE ^ (128 : ℕ)) ^ 2 := by rw [← pow_mul]
    _ ≤ (202576324501 / 200000000000 : ℝ) ^ 2 := h
    _ ≤ (1025929181209 / 1000000000000 : ℝ) := by norm_num

/-- Helper: lower bound for TICK_BASE ^ 512. -/
theorem tb_lb_512 : (1052530684591 / 1000000000000 : ℝ) ≤ TICK_BASE ^ (512 : ℕ) := by
  have h := pow_le_pow_left₀ (by norm_num : (0 : ℝ) ≤ 25648229527 / 25000000000) tb_lb_256 2
  calc (1052530684591 / 1000000000000 : ℝ) ≤ (25648229527 / 25000000000 : ℝ) ^ 2 := by norm_num
    _ ≤ (TICK_BASE ^ (256 : ℕ)) ^ 2 := h
    _ = TICK_BASE ^ (512 : ℕ) := by rw [← pow_mul]

/-- Helper: upper bound for TICK_BASE ^ 512. -/
theorem tb_ub_512 : TICK_BASE ^ (512 : ℕ) ≤ (1052530684857 / 1000000000000 : ℝ) := by
  have h := pow_le_pow_left₀ (tbp 256) tb_ub_256 2
  calc TICK_BASE ^ (512 : ℕ) = (TICK_BASE ^ (256 : ℕ)) ^ 2 := by rw [← pow_mul]
    _ ≤ (1025929181209 / 1000000000000 : ℝ) ^ 2 := h
    _ ≤ (1052530684857 / 1000000000000 : ℝ) := by norm_num

/-- Helper: lower bound for TICK_BASE ^ 1024. -/
theorem tb_lb_1024 : (221564168401 / 200000000000 : ℝ) ≤ TICK_BASE ^ (1024 : ℕ) := by
  have h := pow_le_pow_left₀ (by norm_num : (0 : ℝ) ≤ 1052530684591 / 1000000000000) tb_lb_512 2
  calc (221564168401 / 200000000000 : ℝ) ≤ (1052530684591 / 1000000000000 : ℝ) ^ 2 := by norm_num
    _ ≤ (TICK_BASE ^ (512 : ℕ)) ^ 2 := h
    _ = TICK_BASE ^ (1024 : ℕ) := by rw [← pow_mul]

/-- Helper: upper bound for TICK_BASE ^ 1024. -/
theorem tb_ub_1024 : TICK_BASE ^ (1024 : ℕ) ≤ (553910421283 / 500000000000 : ℝ) := by
  have h := pow_le_pow_left₀ (tbp 512) tb_ub_512 2
  calc TICK_BASE ^ (1024 : ℕ) = (TICK_BASE ^ (512 : ℕ)) ^ 2 := by rw [← pow_mul]
    _ ≤ (1052530684857 / 1000000000000 : ℝ) ^ 2 := h
    _ ≤ (553910421283 / 500000000000 : ℝ) := by norm_num

/-- Helper: lower bound for TICK_BASE ^ 2048. -/
theorem tb_lb_2048 : (61363350899 / 50000000000 : ℝ) ≤ TICK_BASE ^ (2048 : ℕ) := by
  have h := pow_le_pow_left₀ (by norm_num : (0 : ℝ) ≤ 221564168401 / 200000000000) tb_lb_1024 2
  calc (61363350899 / 50000000000 : ℝ) ≤ (221564168401 / 200000000000 : ℝ) ^ 2 := by norm_num
    _ ≤ (TICK_BASE ^ (1024 : ℕ)) ^ 2 := h
    _ = TICK_BASE ^ (2048 : ℕ) := by rw [← pow_mul]

/-- Helper: upper bound for TICK_BASE ^ 2048. -/
theorem tb_ub_2048 : TICK_BASE ^ (2048 : ℕ) ≤ (153408377403 / 125000000000 : ℝ) := by
  have h := pow_le_pow_left₀ (tbp 1024) tb_ub_1024 2
  calc TICK_BASE ^ (2048 : ℕ) = (TICK_BASE ^ (1024 : ℕ)) ^ 2 := by rw [← pow_mul]
    _ ≤ (553910421283 / 500000000000 : ℝ) ^ 2 := h
    _ ≤ (153408377403 / 125000000000 : ℝ) := by norm_num

/-- Helper: lower bound for TICK_BASE ^ 4096. -/
theorem tb_lb_4096 : (1506184333421 / 1000000000000 : ℝ) ≤ TICK_BASE ^ (4096 : ℕ) := by
  have h := pow_le_pow_left₀ (by norm_num : (0 : ℝ) ≤ 61363350899 / 50000000000) tb_lb_2048 2
  calc (1506184333421 / 1000000000000 : ℝ) ≤ (61363350899 / 50000000000 : ℝ) ^ 2 := by norm_num
    _ ≤ (TICK_BASE ^ (2048 : ℕ)) ^ 2 := h
    _ = TICK_BASE ^ (4096 : ℕ) := by rw [← pow_mul]

/-- Helper: upper bound for TICK_BASE ^ 4096. -/
theorem tb_ub_4096 : TICK_BASE ^ (4096 : ℕ) ≤ (60247373459 / 40000000000 : ℝ) := by
  have h := pow_le_pow_left₀ (tbp 2048) tb_ub_2048 2
  calc TICK_BASE ^ (4096 : ℕ) = (TICK_BASE ^ (2048 : ℕ)) ^ 2 := by rw [← pow_mul]
    _ ≤ (153408377403 / 125000000000 : ℝ) ^ 2 := h
    _ ≤ (60247373459 / 40000000000 : ℝ) := by norm_num

/-- Helper: lower bound for TICK_BASE ^ 8192. -/
theorem tb_lb_8192 : (1134295623121 / 500000000000 : ℝ) ≤ TICK_BASE ^ (8192 : ℕ) := by
  have h := pow_le_pow_left₀ (by norm_num : (0 : ℝ) ≤ 1506184333421 / 1000000000000) tb_lb_4096 2
  calc (1134295623121 / 500000000000 : ℝ) ≤ (1506184333421 / 1000000000000 : ℝ) ^ 2 := by norm_num
    _ ≤ (TICK_BASE ^ (4096 : ℕ)) ^ 2 := h
    _ = TICK_BASE ^ (8192 : ℕ) := by rw [← pow_mul]

/-- Helper: upper bound for TICK_BASE ^ 8192. -/
theorem tb_ub_8192 : TICK_BASE ^ (8192 : ℕ) ≤ (2268591255443 / 1000000000000 : ℝ) := by
  have h := pow_le_pow_left₀ (tbp 4096) tb_ub_4096 2
  calc TICK_BASE ^ (8192 : ℕ) = (TICK_BASE ^ (4096 : ℕ)) ^ 2 := by rw [← pow_mul]
    _ ≤ (60247373459 / 40000000000 : ℝ) ^ 2 := h
    _ ≤ (2268591255443 / 1000000000000 : ℝ) := by norm_num

/-- Helper: lower bound for TICK_BASE ^ 16384. -/
theorem tb_lb_16384 : (205860249701 / 40000000000 : ℝ) ≤ TICK_BASE ^ (16384 : ℕ) := by
  have h := pow_le_pow_left₀ (by norm_num : (0 : ℝ) ≤ 1134295623121 / 500000000000) tb_lb_8192 2
  calc (205860249701 / 40000000000 : ℝ) ≤ (1134295623121 / 500000000000 : ℝ) ^ 2 := by norm_num
    _ ≤ (TICK_BASE ^ (8192 : ℕ)) ^ 2 := h
    _ = TICK_BASE ^ (16384 : ℕ) := by rw [← pow_mul]

/-- Helper: upper bound for TICK_BASE ^ 16384. -/
theorem tb_ub_16384 : TICK_BASE ^ (16384 : ℕ) ≤ (5146506284273 / 1000000000000 : ℝ) := by
  have h := pow_le_pow_left₀ (tbp 8192) tb_ub_8192 2
  calc TICK_BASE ^ (16384 : ℕ) = (TICK_BASE ^ (8192 : ℕ)) ^ 2 := by rw [← pow_mul]
    _ ≤ (2268591255443 / 1000000000000 : ℝ) ^ 2 := h
    _ ≤ (5146506284273 / 1000000000000 : ℝ) := by norm_num

/-- Helper: lower bound for TICK_BASE ^ 32768. -/
theorem tb_lb_32768 : (1324326325217 / 50000000000 : ℝ) ≤ TICK_BASE ^ (32768 : ℕ) := by
  have h := pow_le_pow_left₀ (by norm_num : (0 : ℝ) ≤ 205860249701 / 40000000000) tb_lb_16384 2
  calc (1324326325217 / 50000000000 : ℝ) ≤ (205860249701 / 40000000000 : ℝ) ^ 2 := by norm_num
    _ ≤ (TICK_BASE ^ (16384 : ℕ)) ^ 2 := h
    _ = TICK_BASE ^ (32768 : ℕ) := by rw [← pow_mul]

/-- Helper: upper bound for TICK_BASE ^ 32768. -/
theorem tb_ub_32768 : TICK_BASE ^ (32768 : ℕ) ≤ (2648652693407 / 100000000000 : ℝ) := by
  have h := pow_le_pow_left₀ (tbp 16384) tb_ub_16384 2
  calc TICK_BASE ^ (32768 : ℕ) = (TICK_BASE ^ (16384 : ℕ)) ^ 2 := by rw [← pow_mul]
    _ ≤ (5146506284273 / 1000000000000 : ℝ) ^ 2 := h
    _ ≤ (2648652693407 / 100000000000 : ℝ) := by norm_num

/-- Helper: lower bound for TICK_BASE ^ 65536. -/
theorem tb_lb_65536 : (7015360862651 / 10000000000 : ℝ) ≤ TICK_BASE ^ (65536 : ℕ) := by
  have h := pow_le_pow_left₀ (by norm_num : (0 : ℝ) ≤ 1324326325217 / 50000000000) tb_lb_32768 2
  calc (7015360862651 / 10000000000 : ℝ) ≤ (1324326325217 / 50000000000 : ℝ) ^ 2 := by norm_num
    _ ≤ (TICK_BASE ^ (32768 : ℕ)) ^ 2 := h
    _ = TICK_BASE ^ (65536 : ℕ) := by rw [← pow_mul]

/-- Helper: upper bound for TICK_BASE ^ 65536. -/
theorem tb_ub_65536 : TICK_BASE ^ (65536 : ℕ) ≤ (7015361090293 / 10000000000 : ℝ) := by
  have h := pow_le_pow_left₀ (tbp 32768) tb_ub_32768 2
  calc TICK_BASE ^ (65536 : ℕ) = (TICK_BASE ^ (32768 : ℕ)) ^ 2 := by rw [← pow_mul]
    _ ≤ (2648652693407 / 100000000000 : ℝ) ^ 2 := h
    _ ≤ (7015361090293 / 10000000000 : ℝ) := by norm_num

/-- Helper: TICK_BASE ^ 84980 is at least 4900. -/
theorem tb_pow_84980_ge : (4900 : ℝ) ≤ TICK_BASE ^ (84980 : ℕ) := by
  have e : TICK_BASE ^ (84980 : ℕ) =
      TICK_BASE ^ (65536 : ℕ) * TICK_BASE ^ (16384 : ℕ) * TICK_BASE ^ (2048 : ℕ) * TICK_BASE ^ (512 : ℕ) * TICK_BASE ^ (256 : ℕ) * TICK_BASE ^ (128 : ℕ) * TICK_BASE ^ (64 : ℕ) * TICK_BASE ^ (32 : ℕ) * TICK_BASE ^ (16 : ℕ) * TICK_BASE ^ (4 : ℕ) := by
    rw [show (84980 : ℕ) = 65536 + 16384 + 2048 + 512 + 256 + 128 + 64 + 32 + 16 + 4 by norm_num]
    rw [pow_add, pow_add, pow_add, pow_add, pow_add, pow_add, pow_add, pow_add, pow_add]
  have h1 : (7015360862651 / 10000000000 : ℝ) * (205860249701 / 40000000000 : ℝ) ≤
      TICK_BASE ^ (65536 : ℕ) * TICK_BASE ^ (16384 : ℕ) :=
    mul_le_mul4 (by norm_num) tb_lb_65536 (by norm_num) tb_lb_16384
  have h2 : (7015360862651 / 10000000000 : ℝ) * (205860249701 / 40000000000 : ℝ) * (61363350899 / 50000000000 : ℝ) ≤
      TICK_BASE ^ (65536 : ℕ) * TICK_BASE ^ (16384 : ℕ) * TICK_BASE ^ (2048 : ℕ) :=
    mul_le_mul4 (by norm_num) h1 (by norm_num) tb_lb_2048
  have h3 : (7015360862651 / 10000000000 : ℝ) * (205860249701 / 40000000000 : ℝ) * (61363350899 / 50000000000 : ℝ) * (1052530684591 / 1000000000000 : ℝ) ≤
      TICK_BASE ^ (65536 : ℕ) * TICK_BASE ^ (16384 : ℕ) * TICK_BASE ^ (2048 : ℕ) * TICK_BASE ^ (512 : ℕ) :=
    mul_le_mul4 (by norm_num) h2 (by norm_num) tb_lb_512
  have h4 : (7015360862651 / 10000000000 : ℝ) * (205860249701 / 40000000000 : ℝ) * (61363350899 / 50000000000 : ℝ) * (1052530684591 / 1000000000000 : ℝ) * (25648229527 / 25000000000 : ℝ) ≤
      TICK_BASE ^ (65536 : ℕ) * TICK_BASE ^ (16384 : ℕ) * TICK_BASE ^ (2048 : ℕ) * TICK_BASE ^ (512 : ℕ) * TICK_BASE ^ (256 : ℕ) :=
    mul_le_mul4 (by norm_num) h3 (by norm_num) tb_lb_256
  have h5 : (7015360862651 / 10000000000 : ℝ) * (205860249701 / 40000000000 : ℝ) * (61363350899 / 50000000000 : ℝ) * (1052530684591 / 1000000000000 : ℝ) * (25648229527 / 25000000000 : ℝ) * (506440811221 / 500000000000 : ℝ) ≤
      TICK_BASE ^ (65536 : ℕ) * TICK_BASE ^ (16384 : ℕ) * TICK_BASE ^ (2048 : ℕ) * TICK_BASE ^ (512 : ℕ) * TICK_BASE ^ (256 : ℕ) * TICK_BASE ^ (128 : ℕ) :=
    mul_le_mul4 (by norm_num) h4 (by norm_num) tb_lb_128
  have h6 : (7015360862651 / 10000000000 : ℝ) * (205860249701 / 40000000000 : ℝ) * (61363350899 / 50000000000 : ℝ) * (1052530684591 / 1000000000000 : ℝ) * (25648229527 / 25000000000 : ℝ) * (506440811221 / 500000000000 : ℝ) * (503210100863 / 500000000000 : ℝ) ≤
      TICK_BASE ^ (65536 : ℕ) * TICK_BASE ^ (16384 : ℕ) * TICK_BASE ^ (2048 : ℕ) * TICK_BASE ^ (512 : ℕ) * TICK_BASE ^ (256 : ℕ) * TICK_BASE ^ (128 : ℕ) * TICK_BASE ^ (64 : ℕ) :=
    mul_le_mul4 (by norm_num) h5 (by norm_num) tb_lb_64
  have h7 : (7015360862651 / 10000000000 : ℝ) * (205860249701 / 40000000000 : ℝ) * (61363350899 / 50000000000 : ℝ) * (1052530684591 / 1000000000000 : ℝ) * (25648229527 / 25000000000 : ℝ) * (506440811221 / 500000000000 : ℝ) * (503210100863 / 500000000000 : ℝ) * (1003204964963 / 1000000000000 : ℝ) ≤
      TICK_BASE ^ (65536 : ℕ) * TICK_BASE ^ (16384 : ℕ) * TICK_BASE ^ (2048 : ℕ) * TICK_BASE ^ (512 : ℕ) * TICK_BASE ^ (256 : ℕ) * TICK_BASE ^ (128 : ℕ) * TICK_BASE ^ (64 : ℕ) * TICK_BASE ^ (32 : ℕ) :=
    mul_le_mul4 (by norm_num) h6 (by norm_num) tb_lb_32
  have h8 : (7015360862651 / 10000000000 : ℝ) * (205860249701 / 40000000000 : ℝ) * (61363350899 / 50000000000 : ℝ) * (1052530684591 / 1000000000000 : ℝ) * (25648229527 / 25000000000 : ℝ) * (506440811221 / 500000000000 : ℝ) * (503210100863 / 500000000000 : ℝ) * (1003204964963 / 1000000000000 : ℝ) * (12520015007 / 12500000000 : ℝ) ≤
      TICK_BASE ^ (65536 : ℕ) * TICK_BASE ^ (16384 : ℕ) * TICK_BASE ^ (2048 : ℕ) * TICK_BASE ^ (512 : ℕ) * TICK_BASE ^ (256 : ℕ) * TICK_BASE ^ (128 : ℕ) * TICK_BASE ^ (64 : ℕ) * TICK_BASE ^ (32 : ℕ) * TICK_BASE ^ (16 : ℕ) :=
    mul_le_mul4 (by norm_num) h7 (by norm_num) tb_lb_16
  have h9 : (7015360862651 / 10000000000 : ℝ) * (205860249701 / 40000000000 : ℝ) * (61363350899 / 50000000000 : ℝ) * (1052530684591 / 1000000000000 : ℝ) * (25648229527 / 25000000000 : ℝ) * (506440811221 / 500000000000 : ℝ) * (503210100863 / 500000000000 : ℝ) * (1003204964963 / 1000000000000 : ℝ) * (12520015007 / 12500000000 : ℝ) * (250100015001 / 250000000000 : ℝ) ≤
      TICK_BASE ^ (65536 : ℕ) * TICK_BASE ^ (16384 : ℕ) * TICK_BASE ^ (2048 : ℕ) * TICK_BASE ^ (512 : ℕ) * TICK_BASE ^ (256 : ℕ) * TICK_BASE ^ (128 : ℕ) * TICK_BASE ^ (64 : ℕ) * TICK_BASE ^ (32 : ℕ) * TICK_BASE ^ (16 : ℕ) * TICK_BASE ^ (4 : ℕ) :=
    mul_le_mul4 (by norm_num) h8 (by norm_num) tb_lb_4
  rw [e]
  calc (4900 : ℝ) ≤ (7015360862651 / 10000000000 : ℝ) * (205860249701 / 40000000000 : ℝ) * (61363350899 / 50000000000 : ℝ) * (1052530684591 / 1000000000000 : ℝ) * (25648229527 / 25000000000 : ℝ) * (506440811221 / 500000000000 : ℝ) * (503210100863 / 500000000000 : ℝ) * (1003204964963 / 1000000000000 : ℝ) * (12520015007 / 12500000000 : ℝ) * (250100015001 / 250000000000 : ℝ) := by norm_num
    _ ≤ TICK_BASE ^ (65536 : ℕ) * TICK_BASE ^ (16384 : ℕ) * TICK_BASE ^ (2048 : ℕ) * TICK_BASE ^ (512 : ℕ) * TICK_BASE ^ (256 : ℕ) * TICK_BASE ^ (128 : ℕ) * TICK_BASE ^ (64 : ℕ) * TICK_BASE ^ (32 : ℕ) * TICK_BASE ^ (16 : ℕ) * TICK_BASE ^ (4 : ℕ) := h9

/-- Helper: TICK_BASE ^ 84970 is less than 4900. -/
theorem tb_pow_84970_lt : TICK_BASE ^ (84970 : ℕ) < 4900 := by
  have e : TICK_BASE ^ (84970 : ℕ) =
      TICK_BASE ^ (65536 : ℕ) * TICK_BASE ^ (16384 : ℕ) * TICK_BASE ^ (2048 : ℕ) * TICK_BASE ^ (512 : ℕ) * TICK_BASE ^ (256 : ℕ) * TICK_BASE ^ (128 : ℕ) * TICK_BASE ^ (64 : ℕ) * TICK_BASE ^ (32 : ℕ) * TICK_BASE ^ (8 : ℕ) * TICK_BASE ^ (2 : ℕ) := by
    rw [show (84970 : ℕ) = 65536 + 16384 + 2048 + 512 + 256 + 128 + 64 + 32 + 8 + 2 by norm_num]
    rw [pow_add, pow_add, pow_add, pow_add, pow_add, pow_add, pow_add, pow_add, pow_add]
  have hn1 : (0 : ℝ) ≤ TICK_BASE ^ (65536 : ℕ) :=
    (tbp 65536)
  have h1 : TICK_BASE ^ (65536 : ℕ) * TICK_BASE ^ (16384 : ℕ) ≤
      (7015361090293 / 10000000000 : ℝ) * (5146506284273 / 1000000000000 : ℝ) :=
    mul_le_mul4 hn1 tb_ub_65536 (tbp 16384) tb_ub_16384
  have hn2 : (0 : ℝ) ≤ TICK_BASE ^ (65536 : ℕ) * TICK_BASE ^ (16384 : ℕ) :=
    mul_nonneg hn1 (tbp 16384)
  have h2 : TICK_BASE ^ (65536 : ℕ) * TICK_BASE ^ (16384 : ℕ) * TICK_BASE ^ (2048 : ℕ) ≤
      (7015361090293 / 10000000000 : ℝ) * (5146506284273 / 1000000000000 : ℝ) * (153408377403 / 125000000000 : ℝ) :=
    mul_le_mul4 hn2 h1 (tbp 2048) tb_ub_2048
  have hn3 : (0 : ℝ) ≤ TICK_BASE ^ (65536 : ℕ) * TICK_BASE ^ (16384 : ℕ) * TICK_BASE ^ (2048 : ℕ) :=
    mul_nonneg hn2 (tbp 2048)
  have h3 : TICK_BASE ^ (65536 : ℕ) * TICK_BASE ^ (16384 : ℕ) * TICK_BASE ^ (2048 : ℕ) * TICK_BASE ^ (512 : ℕ) ≤
      (7015361090293 / 10000000000 : ℝ) * (5146506284273 / 1000000000000 : ℝ) * (153408377403 / 125000000000 : ℝ) * (1052530684857 / 1000000000000 : ℝ) :=
    mul_le_mul4 hn3 h2 (tbp 512) tb_ub_512
  have hn4 : (0 : ℝ) ≤ TICK_BASE ^ (65536 : ℕ) * TICK_BASE ^ (16384 : ℕ) * TICK_BASE ^ (2048 : ℕ) * TICK_BASE ^ (512 : ℕ) :=
    mul_nonneg hn3 (tbp 512)
  have h4 : TICK_BASE ^ (65536 : ℕ) * TICK_BASE ^ (16384 : ℕ) * TICK_BASE ^ (2048 : ℕ) * TICK_BASE ^ (512 : ℕ) * TICK_BASE ^ (256 : ℕ) ≤
      (7015361090293 / 10000000000 : ℝ) * (5146506284273 / 1000000000000 : ℝ) * (153408377403 / 125000000000 : ℝ) * (1052530684857 / 1000000000000 : ℝ) * (1025929181209 / 1000000000000 : ℝ) :=
    mul_le_mul4 hn4 h3 (tbp 256) tb_ub_256
  have hn5 : (0 : ℝ) ≤ TICK_BASE ^ (65536 : ℕ) * TICK_BASE ^ (16384 : ℕ) * TICK_BASE ^ (2048 : ℕ) * TICK_BASE ^ (512 : ℕ) * TICK_BASE ^ (256 : ℕ) :=
    mul_nonneg hn4 (tbp 256)
  have h5 : TICK_BASE ^ (65536 : ℕ) * TICK_BASE ^ (16384 : ℕ) * TICK_BASE ^ (2048 : ℕ) * TICK_BASE ^ (512 : ℕ) * TICK_BASE ^ (256 : ℕ) * TICK_BASE ^ (128 : ℕ) ≤
      (7015361090293 / 10000000000 : ℝ) * (5146506284273 / 1000000000000 : ℝ) * (153408377403 / 125000000000 : ℝ) * (1052530684857 / 1000000000000 : ℝ) * (1025929181209 / 1000000000000 : ℝ) * (202576324501 / 200000000000 : ℝ) :=
    mul_le_mul4 hn5 h4 (tbp 128) tb_ub_128
  have hn6 : (0 : ℝ) ≤ TICK_BASE ^ (65536 : ℕ) * TICK_BASE ^ (16384 : ℕ) * TICK_BASE ^ (2048 : ℕ) * TICK_BASE ^ (512 : ℕ) * TICK_BASE ^ (256 : ℕ) * TICK_BASE ^ (128 : ℕ) :=
    mul_nonneg hn5 (tbp 128)
  have h6 : TICK_BASE ^ (65536 : ℕ) * TICK_BASE ^ (16384 : ℕ) * TICK_BASE ^ (2048 : ℕ) * TICK_BASE ^ (512 : ℕ) * TICK_BASE ^ (256 : ℕ) * TICK_BASE ^ (128 : ℕ) * TICK_BASE ^ (64 : ℕ) ≤
      (7015361090293 / 10000000000 : ℝ) * (5146506284273 / 1000000000000 : ℝ) * (153408377403 / 125000000000 : ℝ) * (1052530684857 / 1000000000000 : ℝ) * (1025929181209 / 1000000000000 : ℝ) * (202576324501 / 200000000000 : ℝ) * (1006420201757 / 1000000000000 : ℝ) :=
    mul_le_mul4 hn6 h5 (tbp 64) tb_ub_64
  have hn7 : (0 : ℝ) ≤ TICK_BASE ^ (65536 : ℕ) * TICK_BASE ^ (16384 : ℕ) * TICK_BASE ^ (2048 : ℕ) * TICK_BASE ^ (512 : ℕ) * TICK_BASE ^ (256 : ℕ) * TICK_BASE ^ (128 : ℕ) * TICK_BASE ^ (64 : ℕ) :=
    mul_nonneg hn6 (tbp 64)
  have h7 : TICK_BASE ^ (65536 : ℕ) * TICK_BASE ^ (16384 : ℕ) * TICK_BASE ^ (2048 : ℕ) * TICK_BASE ^ (512 : ℕ) * TICK_BASE ^ (256 : ℕ) * TICK_BASE ^ (128 : ℕ) * TICK_BASE ^ (64 : ℕ) * TICK_BASE ^ (32 : ℕ) ≤
      (7015361090293 / 10000000000 : ℝ) * (5146506284273 / 1000000000000 : ℝ) * (153408377403 / 125000000000 : ℝ) * (1052530684857 / 1000000000000 : ℝ) * (1025929181209 / 1000000000000 : ℝ) * (202576324501 / 200000000000 : ℝ) * (1006420201757 / 1000000000000 : ℝ) * (501602482489 / 500000000000 : ℝ) :=
    mul_le_mul4 hn7 h6 (tbp 32) tb_ub_32
  have hn8 : (0 : ℝ) ≤ TICK_BASE ^ (65536 : ℕ) * TICK_BASE ^ (16384 : ℕ) * TICK_BASE ^ (2048 : ℕ) * TICK_BASE ^ (512 : ℕ) * TICK_BASE ^ (256 : ℕ) * TICK_BASE ^ (128 : ℕ) * TICK_BASE ^ (64 : ℕ) * TICK_BASE ^ (32 : ℕ) :=
    mul_nonneg hn7 (tbp 32)
  have h8 : TICK_BASE ^ (65536 : ℕ) * TICK_BASE ^ (16384 : ℕ) * TICK_BASE ^ (2048 : ℕ) * TICK_BASE ^ (512 : ℕ) * TICK_BASE ^ (256 : ℕ) * TICK_BASE ^ (128 : ℕ) * TICK_BASE ^ (64 : ℕ) * TICK_BASE ^ (32 : ℕ) * TICK_BASE ^ (8 : ℕ) ≤
      (7015361090293 / 10000000000 : ℝ) * (5146506284273 / 1000000000000 : ℝ) * (153408377403 / 125000000000 : ℝ) * (1052530684857 / 1000000000000 : ℝ) * (1025929181209 / 1000000000000 : ℝ) * (202576324501 / 200000000000 : ℝ) * (1006420201757 / 1000000000000 : ℝ) * (501602482489 / 500000000000 : ℝ) * (1000800280059 / 1000000000000 : ℝ) :=
    mul_le_mul4 hn8 h7 (tbp 8) tb_ub_8
  have hn9 : (0 : ℝ) ≤ TICK_BASE ^ (65536 : ℕ) * TICK_BASE ^ (16384 : ℕ) * TICK_BASE ^ (2048 : ℕ) * TICK_BASE ^ (512 : ℕ) * TICK_BASE ^ (256 : ℕ) * TICK_BASE ^ (128 : ℕ) * TICK_BASE ^ (64 : ℕ) * TICK_BASE ^ (32 : ℕ) * TICK_BASE ^ (8 : ℕ) :=
    mul_nonneg hn8 (tbp 8)
  have h9 : TICK_BASE ^ (65536 : ℕ) * TICK_BASE ^ (16384 : ℕ) * TICK_BASE ^ (2048 : ℕ) * TICK_BASE ^ (512 : ℕ) * TICK_BASE ^ (256 : ℕ) * TICK_BASE ^ (128 : ℕ) * TICK_BASE ^ (64 : ℕ) * TICK_BASE ^ (32 : ℕ) * TICK_BASE ^ (8 : ℕ) * TICK_BASE ^ (2 : ℕ) ≤
      (7015361090293 / 10000000000 : ℝ) * (5146506284273 / 1000000000000 : ℝ) * (153408377403 / 125000000000 : ℝ) * (1052530684857 / 1000000000000 : ℝ) * (1025929181209 / 1000000000000 : ℝ) * (202576324501 / 200000000000 : ℝ) * (1006420201757 / 1000000000000 : ℝ) * (501602482489 / 500000000000 : ℝ) * (1000800280059 / 1000000000000 : ℝ) * (100020001 / 100000000 : ℝ) :=
    mul_le_mul4 hn9 h8 (tbp 2) tb_ub_2
  rw [e]
  calc TICK_BASE ^ (65536 : ℕ) * TICK_BASE ^ (16384 : ℕ) * TICK_BASE ^ (2048 : ℕ) * TICK_BASE ^ (512 : ℕ) * TICK_BASE ^ (256 : ℕ) * TICK_BASE ^ (128 : ℕ) * TICK_BASE ^ (64 : ℕ) * TICK_BASE ^ (32 : ℕ) * TICK_BASE ^ (8 : ℕ) * TICK_BASE ^ (2 : ℕ) ≤ (7015361090293 / 10000000000 : ℝ) * (5146506284273 / 1000000000000 : ℝ) * (153408377403 / 125000000000 : ℝ) * (1052530684857 / 1000000000000 : ℝ) * (1025929181209 / 1000000000000 : ℝ) * (202576324501 / 200000000000 : ℝ) * (1006420201757 / 1000000000000 : ℝ) * (501602482489 / 500000000000 : ℝ) * (1000800280059 / 1000000000000 : ℝ) * (100020001 / 100000000 : ℝ) := h9
    _ < 4900 := by norm_num

/-- Helper: TICK_BASE ^ 85380 is at least 5100. -/
theorem tb_pow_85380_ge : (5100 : ℝ) ≤ TICK_BASE ^ (85380 : ℕ) := by
  have e : TICK_BASE ^ (85380 : ℕ) =
      TICK_BASE ^ (65536 : ℕ) * TICK_BASE ^ (16384 : ℕ) * TICK_BASE ^ (2048 : ℕ) * TICK_BASE ^ (1024 : ℕ) * TICK_BASE ^ (256 : ℕ) * TICK_BASE ^ (128 : ℕ) * TICK_BASE ^ (4 : ℕ) := by
    rw [show (85380 : ℕ) = 65536 + 16384 + 2048 + 1024 + 256 + 128 + 4 by norm_num]
    rw [pow_add, pow_add, pow_add, pow_add, pow_add, pow_add]
  have h1 : (7015360862651 / 10000000000 : ℝ) * (205860249701 / 40000000000 : ℝ) ≤
      TICK_BASE ^ (65536 : ℕ) * TICK_BASE ^ (16384 : ℕ) :=
    mul_le_mul4 (by norm_num) tb_lb_65536 (by norm_num) tb_lb_16384
  have h2 : (7015360862651 / 10000000000 : ℝ) * (205860249701 / 40000000000 : ℝ) * (61363350899 / 50000000000 : ℝ) ≤
      TICK_BASE ^ (65536 : ℕ) * TICK_BASE ^ (16384 : ℕ) * TICK_BASE ^ (2048 : ℕ) :=
    mul_le_mul4 (by norm_num) h1 (by norm_num) tb_lb_2048
  have h3 : (7015360862651 / 10000000000 : ℝ) * (205860249701 / 40000000000 : ℝ) * (61363350899 / 50000000000 : ℝ) * (221564168401 / 200000000000 : ℝ) ≤
      TICK_BASE ^ (65536 : ℕ) * TICK_BASE ^ (16384 : ℕ) * TICK_BASE ^ (2048 : ℕ) * TICK_BASE ^ (1024 : ℕ) :=
    mul_le_mul4 (by norm_num) h2 (by norm_num) tb_lb_1024
  have h4 : (7015360862651 / 10000000000 : ℝ) * (205860249701 / 40000000000 : ℝ) * (61363350899 / 50000000000 : ℝ) * (221564168401 / 200000000000 : ℝ) * (25648229527 / 25000000000 : ℝ) ≤
      TICK_BASE ^ (65536 : ℕ) * TICK_BASE ^ (16384 : ℕ) * TICK_BASE ^ (2048 : ℕ) * TICK_BASE ^ (1024 : ℕ) * TICK_BASE ^ (256 : ℕ) :=
    mul_le_mul4 (by norm_num) h3 (by norm_num) tb_lb_256
  have h5 : (7015360862651 / 10000000000 : ℝ) * (205860249701 / 40000000000 : ℝ) * (61363350899 / 50000000000 : ℝ) * (221564168401 / 200000000000 : ℝ) * (25648229527 / 25000000000 : ℝ) * (506440811221 / 500000000000 : ℝ) ≤
      TICK_BASE ^ (65536 : ℕ) * TICK_BASE ^ (16384 : ℕ) * TICK_BASE ^ (2048 : ℕ) * TICK_BASE ^ (1024 : ℕ) * TICK_BASE ^ (256 : ℕ) * TICK_BASE ^ (128 : ℕ) :=
    mul_le_mul4 (by norm_num) h4 (by norm_num) tb_lb_128
  have h6 : (7015360862651 / 10000000000 : ℝ) * (205860249701 / 40000000000 : ℝ) * (61363350899 / 50000000000 : ℝ) * (221564168401 / 200000000000 : ℝ) * (25648229527 / 25000000000 : ℝ) * (506440811221 / 500000000000 : ℝ) * (250100015001 / 250000000000 : ℝ) ≤
      TICK_BASE ^ (65536 : ℕ) * TICK_BASE ^ (16384 : ℕ) * TICK_BASE ^ (2048 : ℕ) * TICK_BASE ^ (1024 : ℕ) * TICK_BASE ^ (256 : ℕ) * TICK_BASE ^ (128 : ℕ) * TICK_BASE ^ (4 : ℕ) :=
    mul_le_mul4 (by norm_num) h5 (by norm_num) tb_lb_4
  rw [e]
  calc (5100 : ℝ) ≤ (7015360862651 / 10000000000 : ℝ) * (205860249701 / 40000000000 : ℝ) * (61363350899 / 50000000000 : ℝ) * (221564168401 / 200000000000 : ℝ) * (25648229527 / 25000000000 : ℝ) * (506440811221 / 500000000000 : ℝ) * (250100015001 / 250000000000 : ℝ) := by norm_num
    _ ≤ TICK_BASE ^ (65536 : ℕ) * TICK_BASE ^ (16384 : ℕ) * TICK_BASE ^ (2048 : ℕ) * TICK_BASE ^ (1024 : ℕ) * TICK_BASE ^ (256 : ℕ) * TICK_BASE ^ (128 : ℕ) * TICK_BASE ^ (4 : ℕ) := h6

/-- Helper: TICK_BASE ^ 85370 is less than 5100. -/
theorem tb_pow_85370_lt : TICK_BASE ^ (85370 : ℕ) < 5100 := by
  have e : TICK_BASE ^ (85370 : ℕ) =
      TICK_BASE ^ (65536 : ℕ) * TICK_BASE ^ (16384 : ℕ) * TICK_BASE ^ (2048 : ℕ) * TICK_BASE ^ (1024 : ℕ) * TICK_BASE ^ (256 : ℕ) * TICK_BASE ^ (64 : ℕ) * TICK_BASE ^ (32 : ℕ) * TICK_BASE ^ (16 : ℕ) * TICK_BASE ^ (8 : ℕ) * TICK_BASE ^ (2 : ℕ) := by
    rw [show (85370 : ℕ) = 65536 + 16384 + 2048 + 1024 + 256 + 64 + 32 + 16 + 8 + 2 by norm_num]
    rw [pow_add, pow_add, pow_add, pow_add, pow_add, pow_add, pow_add, pow_add, pow_add]
  have hn1 : (0 : ℝ) ≤ TICK_BASE ^ (65536 : ℕ) :=
    (tbp 65536)
  have h1 : TICK_BASE ^ (65536 : ℕ) * TICK_BASE ^ (16384 : ℕ) ≤
      (7015361090293 / 10000000000 : ℝ) * (5146506284273 / 1000000000000 : ℝ) :=
    mul_le_mul4 hn1 tb_ub_65536 (tbp 16384) tb_ub_16384
  have hn2 : (0 : ℝ) ≤ TICK_BASE ^ (65536 : ℕ) * TICK_BASE ^ (16384 : ℕ) :=
    mul_nonneg hn1 (tbp 16384)
  have h2 : TICK_BASE ^ (65536 : ℕ) * TICK_BASE ^ (16384 : ℕ) * TICK_BASE ^ (2048 : ℕ) ≤
      (7015361090293 / 10000000000 : ℝ) * (5146506284273 / 1000000000000 : ℝ) * (153408377403 / 125000000000 : ℝ) :=
    mul_le_mul4 hn2 h1 (tbp 2048) tb_ub_2048
  have hn3 : (0 : ℝ) ≤ TICK_BASE ^ (65536 : ℕ) * TICK_BASE ^ (16384 : ℕ) * TICK_BASE ^ (2048 : ℕ) :=
    mul_nonneg hn2 (tbp 2048)
  have h3 : TICK_BASE ^ (65536 : ℕ) * TICK_BASE ^ (16384 : ℕ) * TICK_BASE ^ (2048 : ℕ) * TICK_BASE ^ (1024 : ℕ) ≤
      (7015361090293 / 10000000000 : ℝ) * (5146506284273 / 1000000000000 : ℝ) * (153408377403 / 125000000000 : ℝ) * (553910421283 / 500000000000 : ℝ) :=
    mul_le_mul4 hn3 h2 (tbp 1024) tb_ub_1024
  have hn4 : (0 : ℝ) ≤ TICK_BASE ^ (65536 : ℕ) * TICK_BASE ^ (16384 : ℕ) * TICK_BASE ^ (2048 : ℕ) * TICK_BASE ^ (1024 : ℕ) :=
    mul_nonneg hn3 (tbp 1024)
  have h4 : TICK_BASE ^ (65536 : ℕ) * TICK_BASE ^ (16384 : ℕ) * TICK_BASE ^ (2048 : ℕ) * TICK_BASE ^ (1024 : ℕ) * TICK_BASE ^ (256 : ℕ) ≤
      (7015361090293 / 10000000000 : ℝ) * (5146506284273 / 1000000000000 : ℝ) * (153408377403 / 125000000000 : ℝ) * (553910421283 / 500000000000 : ℝ) * (1025929181209 / 1000000000000 : ℝ) :=
    mul_le_mul4 hn4 h3 (tbp 256) tb_ub_256
  have hn5 : (0 : ℝ) ≤ TICK_BASE ^ (65536 : ℕ) * TICK_BASE ^ (16384 : ℕ) * TICK_BASE ^ (2048 : ℕ) * TICK_BASE ^ (1024 : ℕ) * TICK_BASE ^ (256 : ℕ) :=
    mul_nonneg hn4 (tbp 256)
  have h5 : TICK_BASE ^ (65536 : ℕ) * TICK_BASE ^ (16384 : ℕ) * TICK_BASE ^ (2048 : ℕ) * TICK_BASE ^ (1024 : ℕ) * TICK_BASE ^ (256 : ℕ) * TICK_BASE ^ (64 : ℕ) ≤
      (7015361090293 / 10000000000 : ℝ) * (5146506284273 / 1000000000000 : ℝ) * (153408377403 / 125000000000 : ℝ) * (553910421283 / 500000000000 : ℝ) * (1025929181209 / 1000000000000 : ℝ) * (1006420201757 / 1000000000000 : ℝ) :=
    mul_le_mul4 hn5 h4 (tbp 64) tb_ub_64
  have hn6 : (0 : ℝ) ≤ TICK_BASE ^ (65536 : ℕ) * TICK_BASE ^ (16384 : ℕ) * TICK_BASE ^ (2048 : ℕ) * TICK_BASE ^ (1024 : ℕ) * TICK_BASE ^ (256 : ℕ) * TICK_BASE ^ (64 : ℕ) :=
    mul_nonneg hn5 (tbp 64)
  have h6 : TICK_BASE ^ (65536 : ℕ) * TICK_BASE ^ (16384 : ℕ) * TICK_BASE ^ (2048 : ℕ) * TICK_BASE ^ (1024 : ℕ) * TICK_BASE ^ (256 : ℕ) * TICK_BASE ^ (64 : ℕ) * TICK_BASE ^ (32 : ℕ) ≤
      (7015361090293 / 10000000000 : ℝ) * (5146506284273 / 1000000000000 : ℝ) * (153408377403 / 125000000000 : ℝ) * (553910421283 / 500000000000 : ℝ) * (1025929181209 / 1000000000000 : ℝ) * (1006420201757 / 1000000000000 : ℝ) * (501602482489 / 500000000000 : ℝ) :=
    mul_le_mul4 hn6 h5 (tbp 32) tb_ub_32
  have hn7 : (0 : ℝ) ≤ TICK_BASE ^ (65536 : ℕ) * TICK_BASE ^ (16384 : ℕ) * TICK_BASE ^ (2048 : ℕ) * TICK_BASE ^ (1024 : ℕ) * TICK_BASE ^ (256 : ℕ) * TICK_BASE ^ (64 : ℕ) * TICK_BASE ^ (32 : ℕ) :=
    mul_nonneg hn6 (tbp 32)
  have h7 : TICK_BASE ^ (65536 : ℕ) * TICK_BASE ^ (16384 : ℕ) * TICK_BASE ^ (2048 : ℕ) * TICK_BASE ^ (1024 : ℕ) * TICK_BASE ^ (256 : ℕ) * TICK_BASE ^ (64 : ℕ) * TICK_BASE ^ (32 : ℕ) * TICK_BASE ^ (16 : ℕ) ≤
      (7015361090293 / 10000000000 : ℝ) * (5146506284273 / 1000000000000 : ℝ) * (153408377403 / 125000000000 : ℝ) * (553910421283 / 500000000000 : ℝ) * (1025929181209 / 1000000000000 : ℝ) * (1006420201757 / 1000000000000 : ℝ) * (501602482489 / 500000000000 : ℝ) * (1001601200567 / 1000000000000 : ℝ) :=
    mul_le_mul4 hn7 h6 (tbp 16) tb_ub_16
  have hn8 : (0 : ℝ) ≤ TICK_BASE ^ (65536 : ℕ) * TICK_BASE ^ (16384 : ℕ) * TICK_BASE ^ (2048 : ℕ) * TICK_BASE ^ (1024 : ℕ) * TICK_BASE ^ (256 : ℕ) * TICK_BASE ^ (64 : ℕ) * TICK_BASE ^ (32 : ℕ) * TICK_BASE ^ (16 : ℕ) :=
    mul_nonneg hn7 (tbp 16)
  have h8 : TICK_BASE ^ (65536 : ℕ) * TICK_BASE ^ (16384 : ℕ) * TICK_BASE ^ (2048 : ℕ) * TICK_BASE ^ (1024 : ℕ) * TICK_BASE ^ (256 : ℕ) * TICK_BASE ^ (64 : ℕ) * TICK_BASE ^ (32 : ℕ) * TICK_BASE ^ (16 : ℕ) * TICK_BASE ^ (8 : ℕ) ≤
      (7015361090293 / 10000000000 : ℝ) * (5146506284273 / 1000000000000 : ℝ) * (153408377403 / 125000000000 : ℝ) * (553910421283 / 500000000000 : ℝ) * (1025929181209 / 1000000000000 : ℝ) * (1006420201757 / 1000000000000 : ℝ) * (501602482489 / 500000000000 : ℝ) * (1001601200567 / 1000000000000 : ℝ) * (1000800280059 / 1000000000000 : ℝ) :=
    mul_le_mul4 hn8 h7 (tbp 8) tb_ub_8
  have hn9 : (0 : ℝ) ≤ TICK_BASE ^ (65536 : ℕ) * TICK_BASE ^ (16384 : ℕ) * TICK_BASE ^ (2048 : ℕ) * TICK_BASE ^ (1024 : ℕ) * TICK_BASE ^ (256 : ℕ) * TICK_BASE ^ (64 : ℕ) * TICK_BASE ^ (32 : ℕ) * TICK_BASE ^ (16 : ℕ) * TICK_BASE ^ (8 : ℕ) :=
    mul_nonneg hn8 (tbp 8)
  have h9 : TICK_BASE ^ (65536 : ℕ) * TICK_BASE ^ (16384 : ℕ) * TICK_BASE ^ (2048 : ℕ) * TICK_BASE ^ (1024 : ℕ) * TICK_BASE ^ (256 : ℕ) * TICK_BASE ^ (64 : ℕ) * TICK_BASE ^ (32 : ℕ) * TICK_BASE ^ (16 : ℕ) * TICK_BASE ^ (8 : ℕ) * TICK_BASE ^ (2 : ℕ) ≤
      (7015361090293 / 10000000000 : ℝ) * (5146506284273 / 1000000000000 : ℝ) * (153408377403 / 125000000000 : ℝ) * (553910421283 / 500000000000 : ℝ) * (1025929181209 / 1000000000000 : ℝ) * (1006420201757 / 1000000000000 : ℝ) * (501602482489 / 500000000000 : ℝ) * (1001601200567 / 1000000000000 : ℝ) * (1000800280059 / 1000000000000 : ℝ) * (100020001 / 100000000 : ℝ) :=
    mul_le_mul4 hn9 h8 (tbp 2) tb_ub_2
  rw [e]
  calc TICK_BASE ^ (65536 : ℕ) * TICK_BASE ^ (16384 : ℕ) * TICK_BASE ^ (2048 : ℕ) * TICK_BASE ^ (1024 : ℕ) * TICK_BASE ^ (256 : ℕ) * TICK_BASE ^ (64 : ℕ) * TICK_BASE ^ (32 : ℕ) * TICK_BASE ^ (16 : ℕ) * TICK_BASE ^ (8 : ℕ) * TICK_BASE ^ (2 : ℕ) ≤ (7015361090293 / 10000000000 : ℝ) * (5146506284273 / 1000000000000 : ℝ) * (153408377403 / 125000000000 : ℝ) * (553910421283 / 500000000000 : ℝ) * (1025929181209 / 1000000000000 : ℝ) * (1006420201757 / 1000000000000 : ℝ) * (501602482489 / 500000000000 : ℝ) * (1001601200567 / 1000000000000 : ℝ) * (1000800280059 / 1000000000000 : ℝ) * (100020001 / 100000000 : ℝ) := h9
    _ < 5100 := by norm_num

/-- Helper: the tick base exceeds one. -/
theorem tb_gt_one : (1 : ℝ) < TICK_BASE := by norm_num [TICK_BASE]

/-- Helper: the spacing-aligned tick of price 1/4900 at spacing 10 is -84980. -/
theorem ptws_low : price_to_tick_with_spacing (1 / 4900) 10 = .ok (-84980) := by
  have hx : (0 : ℝ) < 1 / 4900 := by norm_num
  have hlb : (-84980 : ℝ) ≤ Real.logb TICK_BASE (1 / 4900) := by
    rw [Real.le_logb_iff_rpow_le tb_gt_one hx,
      show ((-84980 : ℝ)) = (((-84980 : ℤ)) : ℝ) by norm_num, Real.rpow_intCast,
      zpow_neg, show ((84980 : ℤ)) = ((84980 : ℕ) : ℤ) by norm_num, zpow_natCast,
      inv_eq_one_div]
    exact one_div_le_one_div_of_le (by norm_num) tb_pow_84980_ge
  have hub : Real.logb TICK_BASE (1 / 4900) < -84970 := by
    rw [Real.logb_lt_iff_lt_rpow tb_gt_one hx,
      show ((-84970 : ℝ)) = (((-84970 : ℤ)) : ℝ) by norm_num, Real.rpow_intCast,
      zpow_neg, show ((84970 : ℤ)) = ((84970 : ℕ) : ℤ) by norm_num, zpow_natCast,
      inv_eq_one_div]
    exact one_div_lt_one_div_of_lt (pow_pos tb_pos 84970) tb_pow_84970_lt
  have hfl_lb : (-84980 : ℤ) ≤ ⌊Real.logb TICK_BASE (1 / 4900)⌋ :=
    Int.le_floor.mpr (by exact_mod_cast hlb)
  have hfl_ub : ⌊Real.logb TICK_BASE (1 / 4900)⌋ < -84970 :=
    Int.floor_lt.mpr (by exact_mod_cast hub)
  have h10 : ⌊(⌊Real.logb TICK_BASE (1 / 4900)⌋ : ℝ) / ((10 : ℤ) : ℝ)⌋ = -8498 := by
    rw [Int.floor_eq_iff]
    constructor
    · rw [le_div_iff₀ (by norm_num : (0 : ℝ) < ((10 : ℤ) : ℝ))]
      have h : (-84980 : ℝ) ≤ (⌊Real.logb TICK_BASE (1 / 4900)⌋ : ℝ) := by
        exact_mod_cast hfl_lb
      push_cast
      linarith
    · rw [div_lt_iff₀ (by norm_num : (0 : ℝ) < ((10 : ℤ) : ℝ))]
      have h : (⌊Real.logb TICK_BASE (1 / 4900)⌋ : ℝ) < -84970 := by
        exact_mod_cast hfl_ub
      push_cast
      linarith
  unfold price_to_tick_with_spacing price_to_tick
  rw [if_neg (not_le.mpr hx)]
  simp only [Except.map]
  unfold align_to_spacing
  rw [h10]
  norm_num

/-- Helper: the spacing-aligned tick of price 1/5100 at spacing 10 is -85380. -/
theorem ptws_high : price_to_tick_with_spacing (1 / 5100) 10 = .ok (-85380) := by
  have hx : (0 : ℝ) < 1 / 5100 := by norm_num
  have hlb : (-85380 : ℝ) ≤ Real.logb TICK_BASE (1 / 5100) := by
    rw [Real.le_logb_iff_rpow_le tb_gt_one hx,
      show ((-85380 : ℝ)) = (((-85380 : ℤ)) : ℝ) by norm_num, Real.rpow_intCast,
      zpow_neg, show ((85380 : ℤ)) = ((85380 : ℕ) : ℤ) by norm_num, zpow_natCast,
      inv_eq_one_div]
    exact one_div_le_one_div_of_le (by norm_num) tb_pow_85380_ge
  have hub : Real.logb TICK_BASE (1 / 5100) < -85370 := by
    rw [Real.logb_lt_iff_lt_rpow tb_gt_one hx,
      show ((-85370 : ℝ)) = (((-85370 : ℤ)) : ℝ) by norm_num, Real.rpow_intCast,
      zpow_neg, show ((85370 : ℤ)) = ((85370 : ℕ) : ℤ) by norm_num, zpow_natCast,
      inv_eq_one_div]
    exact one_div_lt_one_div_of_lt (pow_pos tb_pos 85370) tb_pow_85370_lt
  have hfl_lb : (-85380 : ℤ) ≤ ⌊Real.logb TICK_BASE (1 / 5100)⌋ :=
    Int.le_floor.mpr (by exact_mod_cast hlb)
  have hfl_ub : ⌊Real.logb TICK_BASE (1 / 5100)⌋ < -85370 :=
    Int.floor_lt.mpr (by exact_mod_cast hub)
  have h10 : ⌊(⌊Real.logb TICK_BASE (1 / 5100)⌋ : ℝ) / ((10 : ℤ) : ℝ)⌋ = -8538 := by
    rw [Int.floor_eq_iff]
    constructor
    · rw [le_div_iff₀ (by norm_num : (0 : ℝ) < ((10 : ℤ) : ℝ))]
      have h : (-85380 : ℝ) ≤ (⌊Real.logb TICK_BASE (1 / 5100)⌋ : ℝ) := by
        exact_mod_cast hfl_lb
      push_cast
      linarith
    · rw [div_lt_iff₀ (by norm_num : (0 : ℝ) < ((10 : ℤ) : ℝ))]
      have h : (⌊Real.logb TICK_BASE (1 / 5100)⌋ : ℝ) < -85370 := by
        exact_mod_cast hfl_ub
      push_cast
      linarith
  unfold price_to_tick_with_spacing price_to_tick
  rw [if_neg (not_le.mpr hx)]
  simp only [Except.map]
  unfold align_to_spacing
  rw [h10]
  norm_num

/-- Claim C6: mint_liquidity_position converts the two range prices to
spacing-aligned ticks independently and, whenever both conversions succeed,
both resulting ticks are valid and they come out descending, it sorts the
resulting ticks (not the input prices); concretely, range prices 1/4900 and
1/5100 with spacing 10 produce the sorted tick pair (-85380, -84980). -/
theorem mint_tick_range_sorts_resulting_ticks :
    (∀ (low_price high_price : ℝ) (spacing : ℤ) (lt ht : ℤ),
      price_to_tick_with_spacing low_price spacing = .ok lt →
      price_to_tick_with_spacing high_price spacing = .ok ht →
      is_valid_tick lt → is_valid_tick ht → ht < lt →
      mint_tick_range low_price high_price spacing = .ok (ht, lt)) ∧
    mint_tick_range (1 / 4900) (1 / 5100) 10 = .ok (-85380, -84980) := by
  have v1 : is_valid_tick (-84980 : ℤ) := by decide
  have v2 : is_valid_tick (-85380 : ℤ) := by decide
  constructor
  · intro low_price high_price spacing lt ht h1 h2 hv1 hv2 hlt
    unfold mint_tick_range
    rw [h1, h2]
    simp only [Except.bind]
    rw [if_neg (not_not_intro hv1), if_neg (not_not_intro hv2), if_pos hlt]
  · unfold mint_tick_range
    rw [ptws_low, ptws_high]
    simp only [Except.bind]
    rw [if_neg (not_not_intro v1), if_neg (not_not_intro v2),
      if_pos (by norm_num : (-84980 : ℤ) > -85380)]

/-- Witness for C6 at the concrete range prices 1/4900 and 1/5100. -/
theorem mint_tick_range_sorts_resulting_ticks_witness :
    price_to_tick_with_spacing (1 / 4900) 10 = .ok (-84980) ∧
    price_to_tick_with_spacing (1 / 5100) 10 = .ok (-85380) ∧
    is_valid_tick (-84980 : ℤ) ∧ is_valid_tick (-85380 : ℤ) ∧
    (-85380 : ℤ) < -84980 ∧
    mint_tick_range (1 / 4900) (1 / 5100) 10 = .ok (-85380, -84980) := by
  have v1 : is_valid_tick (-84980 : ℤ) := by decide
  have v2 : is_valid_tick (-85380 : ℤ) := by decide
  exact ⟨ptws_low, ptws_high, v1, v2, by norm_num,
    mint_tick_range_sorts_resulting_ticks.1 (1 / 4900) (1 / 5100) 10
      (-84980) (-85380) ptws_low ptws_high v1 v2 (by norm_num)⟩

end DexSim

